import Mathlib

/-!
# Verification of the automation flow engine and durable scheduler

Shallow embedding of the automation subsystem of the messaging backend:

* `services/automation_scheduler.py` (followup jobs, cancellation, restore, the
  APScheduler firing callback),
* `services/automation_scheduler_worker.py` (polling worker, failure handling,
  stuck-job recovery),
* `services/automation_service.py` (flow CRUD, publish, validation),
* `services/automation_execution.py` (flow executor, condition nodes, records),
* `services/automation_actions.py` (action dispatch, template substitution).

Python dictionaries are modelled as association lists over an inductive
`Value` type mirroring the JSON-ish values the code passes around; MongoDB
single-document conditional updates become pure functions over lists of
documents; wall-clock instants are integers (seconds); external collaborators
(message sends, HTTP, randomness, float coercion) are oracle fields of an
environment record, so theorems quantify over every possible behaviour of the
outside world.
-/

namespace Automation

/-- A Python runtime value as the automation code manipulates it: `None`,
strings, integers, booleans, dicts and lists.  Floats do not occur in the
claims and are not modelled. -/
inductive Value where
  | vnone : Value
  | vstr : String → Value
  | vint : Int → Value
  | vbool : Bool → Value
  | vdict : List (String × Value) → Value
  | vlist : List Value → Value
deriving Repr

namespace Value

/-- Python truthiness (`bool(v)`): `None`, `""`, `0`, `False`, `{}` and `[]`
are falsy, everything else truthy. -/
def truthy : Value → Bool
  | vnone => false
  | vstr s => !(s == "")
  | vint n => !(n == 0)
  | vbool b => b
  | vdict fields => !fields.isEmpty
  | vlist items => !items.isEmpty

/-- Python `str(v)` for the scalar values the claims exercise.  The textual
form of composite values is irrelevant to every theorem below and is fixed to
a simple tag. -/
def pyStr : Value → String
  | vnone => "None"
  | vstr s => s
  | vint n => toString n
  | vbool true => "True"
  | vbool false => "False"
  | vdict _ => "\x7bdict\x7d"
  | vlist _ => "[list]"

end Value

open Value

/-- `d.get(k)` on a Python dict: first binding wins, `none` when absent. -/
def dictGet (fields : List (String × Value)) (k : String) : Option Value :=
  match fields with
  | [] => none
  | (k', v) :: rest => if k' == k then some v else dictGet rest k

/-- `d.get(k, default)`. -/
def dictGetD (fields : List (String × Value)) (k : String) (default : Value) : Value :=
  (dictGet fields k).getD default

/-- `d[k] = v` on a Python dict: replaces the existing binding, else appends. -/
def dictSet (fields : List (String × Value)) (k : String) (v : Value) :
    List (String × Value) :=
  match fields with
  | [] => [(k, v)]
  | (k', v') :: rest =>
      if k' == k then (k', v) :: rest else (k', v') :: dictSet rest k v

/-- Python `a or b`: `a` when truthy, else `b`. -/
def pyOr (a b : Value) : Value := if a.truthy then a else b

/-!
## Template substitution (`replace_variables`, automation_actions.py 512-544)

The source scans `text` with the regex `\x7b\x7b([^\x7d]+)\x7d\x7d` via
`re.sub`; each match's group is stripped, split on `"."` and walked through
the nested dict of variables with `.get`; a missing segment, a non-dict
intermediate value, or a final `None` keeps the original placeholder text.
-/

/-- Python `str.strip()` restricted to whitespace (the only flavour the code
uses): drop leading and trailing whitespace characters. -/
def pyStrip (s : String) : String :=
  String.mk
    (((s.data.dropWhile Char.isWhitespace).reverse.dropWhile
      Char.isWhitespace).reverse)

/-- `"…".split(".")` on the character level: `""` yields `[""]`, exactly as in
Python. -/
def splitDotChars : List Char → List (List Char)
  | [] => [[]]
  | c :: rest =>
      let r := splitDotChars rest
      if c == '.' then [] :: r
      else
        match r with
        | h :: t => (c :: h) :: t
        | [] => [[c]]

/-- Python `s.split(".")`. -/
def pySplitDot (s : String) : List String :=
  (splitDotChars s.data).map String.mk

/-- Python `s.lower()` (ASCII-relevant part). -/
def pyLower (s : String) : String := String.mk (s.data.map Char.toLower)

/-- Python `s.upper()` (ASCII-relevant part). -/
def pyUpper (s : String) : String := String.mk (s.data.map Char.toUpper)

/-- Python `s[:n]`. -/
def pyTake (s : String) (n : Nat) : String := String.mk (s.data.take n)

/-- The dotted-path walk of the source's `replacer` closure: start at the
variables dict, take `value.get(part)` while the current value is a dict,
bail out (keep the placeholder) on a non-dict intermediate, and finally keep
the placeholder when the resulting value is `None`. -/
def walkParts : Value → List String → Option String
  | Value.vnone, [] => none
  | v, [] => some v.pyStr
  | Value.vdict fields, p :: ps => walkParts (dictGetD fields p Value.vnone) ps
  | _, _ :: _ => none

/-- Resolve one raw regex capture: strip it, split on `"."`, walk. -/
def resolveVarRaw (vars : List (String × Value)) (raw : String) : Option String :=
  walkParts (Value.vdict vars) (pySplitDot (pyStrip raw))

/-- The character class `[^\x7d]`. -/
def notRBrace (c : Char) : Bool := !(c == '}')

/-- One left-to-right `re.sub` pass over the character list, parameterised by
the per-capture resolver (`none` keeps the placeholder) and fuelled by the
remaining scan budget (each step consumes at least one character, so an
initial budget of the input length is exact).  At a position starting with
`\x7b\x7b`, the regex matches iff a non-empty greedy run of non-`\x7d`
characters is followed by `\x7d\x7d`; on a match the resolved text (or the
untouched placeholder) is emitted and scanning resumes after the match;
otherwise the scanner advances one character, exactly as the regex engine
does. -/
def substCharsF (resolve : String → Option String) :
    Nat → List Char → List Char
  | 0, l => l
  | _ + 1, [] => []
  | fuel + 1, '{' :: '{' :: rest =>
      let run := rest.takeWhile notRBrace
      if run.isEmpty then '{' :: substCharsF resolve fuel ('{' :: rest)
      else
        match rest.dropWhile notRBrace with
        | '}' :: '}' :: after =>
            (match resolve (String.mk run) with
              | some s => s.data
              | none => '{' :: '{' :: run ++ ['}', '}']) ++
              substCharsF resolve fuel after
        | _ => '{' :: substCharsF resolve fuel ('{' :: rest)
  | fuel + 1, c :: rest => c :: substCharsF resolve fuel rest

/-- The full scan of a character list. -/
def substChars (resolve : String → Option String) (l : List Char) :
    List Char :=
  substCharsF resolve l.length l

/-- `replace_variables(text, variables)` (automation_actions.py 512-544) on an
actual string input (`isinstance(text, str)` true). -/
def replace_variables (text : String) (vars : List (String × Value)) : String :=
  String.mk (substChars (resolveVarRaw vars) text.data)

/-- `replace_variables` applied to an arbitrary Python value:
`if not isinstance(text, str): return str(text)` (automation_actions.py
523-524). -/
def replaceVariablesVal (v : Value) (vars : List (String × Value)) : String :=
  match v with
  | Value.vstr s => replace_variables s vars
  | other => other.pyStr

/-!
## Scheduled follow-up jobs (`automation_scheduler.py` / `_worker.py`)

A document of the `automation_scheduled_jobs` / `automation_scheduled_followups`
collections.  Instants are integer seconds; the persisted `error` dict is
reduced to its message (its timestamp carries no information the claims use).
`max_retries` is optional because the documents written by
`schedule_whatsapp_followup` do not carry the field: the worker reads it with
`job.get("max_retries", 3)`. -/
structure Job where
  job_id : String
  org_id : String
  flow_id : String
  conversation_id : String
  scheduled_at : Int
  status : String
  created_at : Int
  executed_at : Option Int
  cancelled_at : Option Int
  cancel_reason : Option String
  retry_count : Nat
  max_retries : Option Nat
  error : Option String
  action_start_node_id : Option String
  delay_seconds : Option Int
deriving DecidableEq, Repr

/-- `cancel_conversation_followups` (automation_scheduler.py 234-293): find the
`pending` jobs of the `(org_id, conversation_id)` pair, return `0` untouched
when there are none, otherwise `update_many` by the collected `job_id`s to
`cancelled` (with `cancelled_at` and `cancel_reason`) and return how many ids
were collected.  The APScheduler `remove_job` calls touch only the in-memory
timer wheel, not the documents. -/
def cancel_conversation_followups (jobs : List Job) (orgId convId reason : String)
    (now : Int) : List Job × Nat :=
  let pending := jobs.filter fun j =>
    j.org_id == orgId && j.conversation_id == convId && j.status == "pending"
  if pending.isEmpty then (jobs, 0)
  else
    let jobIds := pending.map fun j => j.job_id
    let updated := jobs.map fun j =>
      if jobIds.contains j.job_id then
        { j with status := "cancelled", cancelled_at := some now,
                 cancel_reason := some reason }
      else j
    (updated, jobIds.length)

/-- `cancel_flow_followups` (automation_scheduler.py 296-342): same shape keyed
on `(org_id, flow_id)`. -/
def cancel_flow_followups (jobs : List Job) (orgId flowId reason : String)
    (now : Int) : List Job × Nat :=
  let pending := jobs.filter fun j =>
    j.org_id == orgId && j.flow_id == flowId && j.status == "pending"
  if pending.isEmpty then (jobs, 0)
  else
    let jobIds := pending.map fun j => j.job_id
    let updated := jobs.map fun j =>
      if jobIds.contains j.job_id then
        { j with status := "cancelled", cancelled_at := some now,
                 cancel_reason := some reason }
      else j
    (updated, jobIds.length)

/-- `restore_pending_jobs` (automation_scheduler.py 345-412): iterate the
`pending` documents; one overdue by strictly more than 600 seconds is updated
to `cancelled` with reason `missed_overdue_on_restart`; otherwise the document
is left untouched and the job is re-registered with APScheduler (returned here
as the list of re-armed job ids, in query order).  Non-pending documents are
outside the query and untouched. -/
def restore_pending_jobs (jobs : List Job) (now : Int) : List Job × List String :=
  match jobs with
  | [] => ([], [])
  | j :: rest =>
      let pr := restore_pending_jobs rest now
      if j.status == "pending" then
        if now - j.scheduled_at > 600 then
          ({ j with status := "cancelled", cancelled_at := some now,
                    cancel_reason := some "missed_overdue_on_restart" } :: pr.1,
           pr.2)
        else (j :: pr.1, j.job_id :: pr.2)
      else (j :: pr.1, pr.2)

/-- `_recover_stuck_jobs` (automation_scheduler_worker.py 199-207):
`update_many` over documents with `status == "executing"` and `executed_at`
strictly before `now - 10 minutes` (a document whose `executed_at` is unset
does not satisfy the `$lt` filter), setting `status` to `pending` and
`$inc`-rementing `retry_count` by 1. -/
def recover_stuck_jobs (jobs : List Job) (now : Int) : List Job :=
  jobs.map fun j =>
    if j.status == "executing" &&
        (match j.executed_at with
          | some t => decide (t < now - 600)
          | none => false) then
      { j with status := "pending", retry_count := j.retry_count + 1 }
    else j

/-!
## The firing callback's claim race (`_execute_scheduled_followup`, 419-461)

The callback performs, in order: a `find_one` followed by a local
`status != "pending"` check (lines 434-444), the conditional
`update_one({job_id, status: "pending"}, {$set: {status: "running", ...}})`
(lines 452-455), and a second `find_one` whose result gates execution with
`if refreshed and refreshed["status"] != "running": return` (lines 458-461).
Each database operation is one atomic step; local control flow rides along
with the step that produced its data.  `N` concurrent firings of the same
`job_id` are modelled as `N` copies of this three-step program interleaved by
an explicit schedule over the shared job document's status field. -/

/-- Program counter of one firing attempt.  `done modified proceeded` records
how many documents the attempt's conditional update modified and whether the
attempt went on to execute the flow. -/
inductive ClaimPC where
  | start : ClaimPC
  | casReady : ClaimPC
  | refetchReady : Nat → ClaimPC
  | done : Nat → Bool → ClaimPC
deriving DecidableEq, Repr

/-- One step of one firing attempt against the shared status field. -/
def claimStep (jobStatus : String) : ClaimPC → String × ClaimPC
  | ClaimPC.start =>
      -- find_one + `if job["status"] != "pending": return` (lines 434-444)
      if jobStatus == "pending" then (jobStatus, ClaimPC.casReady)
      else (jobStatus, ClaimPC.done 0 false)
  | ClaimPC.casReady =>
      -- conditional update keyed on status == "pending" (lines 452-455)
      if jobStatus == "pending" then ("running", ClaimPC.refetchReady 1)
      else (jobStatus, ClaimPC.refetchReady 0)
  | ClaimPC.refetchReady m =>
      -- re-fetch; proceed unless the refreshed status differs from "running"
      -- (lines 458-461); the modified count `m` is never consulted
      (jobStatus, ClaimPC.done m (jobStatus == "running"))
  | ClaimPC.done m p => (jobStatus, ClaimPC.done m p)

/-- Shared job status plus the two attempts' program counters. -/
structure ClaimRace where
  jobStatus : String
  pcA : ClaimPC
  pcB : ClaimPC
deriving DecidableEq, Repr

/-- Run a schedule: `true` steps attempt A, `false` steps attempt B. -/
def runClaimRace (s : ClaimRace) : List Bool → ClaimRace
  | [] => s
  | true :: rest =>
      let (st, pc) := claimStep s.jobStatus s.pcA
      runClaimRace { s with jobStatus := st, pcA := pc } rest
  | false :: rest =>
      let (st, pc) := claimStep s.jobStatus s.pcB
      runClaimRace { s with jobStatus := st, pcB := pc } rest

/-- The failure branch of `_execute_scheduled_followup` (automation_scheduler.py
497-512): the job is written to `status = "failed"` with the error message,
unconditionally — `retry_count`, `max_retries` and `scheduled_at` are not
consulted or changed. -/
def followup_failure_update (job : Job) (errMsg : String) : Job :=
  { job with status := "failed", error := some errMsg }

/-- Modelled from the spec: `mark_followup_failed` is imported by
`automation_scheduler_worker.py` from `services.automation_scheduler` but is
absent from the source tree.  Per the spec (§4.6), with `retry` set the job
"is returned to `pending` with `fire_at` pushed forward by a fixed backoff
(5 minutes) and `retry_count` incremented", else it is "marked `failed`
permanently"; the worker's log line "Retry …/… in 5 min" fixes the backoff
origin at the present instant. -/
def mark_followup_failed (job : Job) (errMsg : String) (retry : Bool)
    (now : Int) : Job :=
  if retry then
    { job with status := "pending", scheduled_at := now + 300,
               retry_count := job.retry_count + 1, error := some errMsg }
  else { job with status := "failed", error := some errMsg }

/-- `_handle_failure` (automation_scheduler_worker.py 187-196): computes
`can_retry = retry and retry_count < max_retries` (with `max_retries`
defaulting to 3) and delegates the document transition to
`mark_followup_failed`. -/
def handle_failure (job : Job) (errMsg : String) (retry : Bool) (now : Int) : Job :=
  let canRetry := retry && decide (job.retry_count < job.max_retries.getD 3)
  mark_followup_failed job errMsg canRetry now

/-!
## Flows, validation and publishing (`automation_service.py`, routes)
-/

/-- One node of `flow_data.nodes`, keyed elsewhere by its id. -/
structure Node where
  type : String
  config : List (String × Value)
deriving Repr

/-- One element of `flow_data.connections`; `sourceHandle` is read with
`conn.get("sourceHandle", "")`, so an absent handle is the empty string. -/
structure Conn where
  source : String
  target : String
  sourceHandle : String
deriving DecidableEq, Repr

/-- One element of `flow_data.triggers`; `start_node_id` is `none` when the
key is absent. -/
structure TriggerCfg where
  type : String
  config : List (String × Value)
  start_node_id : Option String
deriving Repr

structure FlowData where
  nodes : List (String × Node)
  connections : List Conn
  triggers : List TriggerCfg
deriving Repr

/-- The fields of a flow document that the publish path and executor read. -/
structure FlowDoc where
  flow_id : String
  org_id : String
  name : String
  status : String
  flow_data : FlowData
  published_at : Option Int
  updated_at : Int
  execution_count : Nat
  last_executed_at : Option Int
deriving Repr

/-- Key membership in the `nodes` mapping (`x in nodes` on a Python dict). -/
def nodeKeyMem (nodes : List (String × Node)) (k : String) : Bool :=
  nodes.any fun p => p.1 == k

/-- `nodes.get(k)`. -/
def nodeGet (nodes : List (String × Node)) (k : String) : Option Node :=
  match nodes with
  | [] => none
  | (k', n) :: rest => if k' == k then some n else nodeGet rest k

/-- `validate_flow_structure` (automation_service.py 460-521) restricted to
structurally well-typed input (the `isinstance`/key-presence guards of lines
472-492 hold by construction here): walk the connections checking that each
`source` and `target` is an existing node id, then walk the triggers checking
that each has a `start_node_id` naming an existing node; the first violation
is returned as `(False, message)`.  No check concerns the number of
triggers. -/
def validate_flow_structure (fd : FlowData) : Bool × Option String :=
  match connCheck fd.nodes fd.connections with
  | some msg => (false, some msg)
  | none =>
      match trigCheck fd.nodes fd.triggers with
      | some msg => (false, some msg)
      | none => (true, none)
where
  connCheck (nodes : List (String × Node)) : List Conn → Option String
    | [] => none
    | c :: rest =>
        if !nodeKeyMem nodes c.source then
          some ("Connection source " ++ c.source ++ " not found in nodes")
        else if !nodeKeyMem nodes c.target then
          some ("Connection target " ++ c.target ++ " not found in nodes")
        else connCheck nodes rest
  trigCheck (nodes : List (String × Node)) : List TriggerCfg → Option String
    | [] => none
    | t :: rest =>
        match t.start_node_id with
        | none => some "Each trigger must have start_node_id"
        | some sid =>
            if !nodeKeyMem nodes sid then
              some ("Trigger start_node_id " ++ sid ++ " not found in nodes")
            else trigCheck nodes rest

/-- The publish-validity predicate exactly as the claim states it: every
connection's `source`/`target` and every trigger's `start_node_id` is an
existing node id, and `triggers` is non-empty.  (Spec-side definition, used
to compare the claim with what `publish_automation_flow` actually checks.) -/
def claimPublishValidity (fd : FlowData) : Bool :=
  (fd.connections.all fun c =>
    nodeKeyMem fd.nodes c.source && nodeKeyMem fd.nodes c.target) &&
  (fd.triggers.all fun t =>
    match t.start_node_id with
    | some sid => nodeKeyMem fd.nodes sid
    | none => false) &&
  !fd.triggers.isEmpty

/-- `find_one({"flow_id": fid, "org_id": org})`. -/
def findFlow (flows : List FlowDoc) (orgId flowId : String) : Option FlowDoc :=
  flows.find? fun f => f.flow_id == flowId && f.org_id == orgId

/-- `update_one` on the flows collection: rewrite the first matching
document. -/
def updateFirstFlow (flows : List FlowDoc) (orgId flowId : String)
    (upd : FlowDoc → FlowDoc) : List FlowDoc :=
  match flows with
  | [] => []
  | f :: rest =>
      if f.flow_id == flowId && f.org_id == orgId then upd f :: rest
      else f :: updateFirstFlow rest orgId flowId upd

/-- `v == "s"` under Python semantics: only a string compares equal to a
string literal. -/
def valueEqStr (v : Value) (s : String) : Bool :=
  match v with
  | Value.vstr t => t == s
  | _ => false

/-- The delay computation inlined in `publish_automation_flow` (lines
297-311): 300 seconds unless the trigger's start node is a `smart_delay`, in
which case `amount` (default 5) is scaled by `unit` (default `"minutes"`).
Non-integer `amount` values are outside the model (in Python they would
corrupt or crash the schedule call). -/
def publishDelaySeconds (nodes : List (String × Node)) (startNodeId : String) : Int :=
  match nodeGet nodes startNodeId with
  | some n =>
      if n.type == "smart_delay" then
        let amount : Int :=
          match dictGet n.config "amount" with
          | some (Value.vint k) => k
          | _ => 5
        let unit := dictGetD n.config "unit" (Value.vstr "minutes")
        if valueEqStr unit "minutes" then amount * 60
        else if valueEqStr unit "hours" then amount * 3600
        else if valueEqStr unit "days" then amount * 86400
        else amount
      else 300
  | none => 300

/-- The job document written by `schedule_whatsapp_followup` (lines 188-205)
when called with an explicit `delay_seconds` and no `flow_data`, as the
publish path does. -/
def scheduleJobDoc (orgId flowId convId : String) (delay : Int) (now : Int)
    (jid : String) : Job :=
  { job_id := jid, org_id := orgId, flow_id := flowId,
    conversation_id := convId,
    scheduled_at := now + delay, status := "pending", created_at := now,
    executed_at := none, cancelled_at := none, cancel_reason := none,
    retry_count := 0, max_retries := none, error := none,
    action_start_node_id := none, delay_seconds := some delay }

/-- `publish_automation_flow` (automation_service.py 252-331): look the flow
up, raise when absent, otherwise set its status to `published` and walk its
triggers scheduling a follow-up job for each `whatsapp_followup` trigger that
carries a truthy `conversation_id` and `start_node_id`.  No validation of the
graph or of the trigger count happens on this path.  `genId` stands in for
the `uuid4`-based job-id generator. -/
def publish_automation_flow (flows : List FlowDoc) (jobs : List Job)
    (orgId flowId : String) (now : Int) (genId : Nat → String) :
    Except String (List FlowDoc × List Job) :=
  match findFlow flows orgId flowId with
  | none => Except.error ("Flow " ++ flowId ++ " not found")
  | some flow =>
      let flows' := updateFirstFlow flows orgId flowId fun f =>
        { f with status := "published", published_at := some now,
                 updated_at := now }
      let fd := flow.flow_data
      let jobs' := scheduleLoop fd jobs 0 fd.triggers
      Except.ok (flows', jobs')
where
  scheduleLoop (fd : FlowData) (jobs : List Job) (k : Nat) :
      List TriggerCfg → List Job
    | [] => jobs
    | t :: rest =>
        if t.type == "whatsapp_followup" then
          let convId := dictGetD t.config "conversation_id" Value.vnone
          if !convId.truthy then scheduleLoop fd jobs k rest
          else
            match t.start_node_id with
            | none => scheduleLoop fd jobs k rest
            | some sid =>
                if sid == "" then scheduleLoop fd jobs k rest
                else
                  let delay := publishDelaySeconds fd.nodes sid
                  let job := scheduleJobDoc orgId flowId convId.pyStr delay now
                    (genId k)
                  scheduleLoop fd (jobs ++ [job]) (k + 1) rest
        else scheduleLoop fd jobs k rest

/-!
## The flow executor (`automation_execution.py`, `automation_actions.py`)
-/

/-- `a.isPrefixOf b` on character lists. -/
def charsPref : List Char → List Char → Bool
  | [], _ => true
  | _ :: _, [] => false
  | a :: as, b :: bs => a == b && charsPref as bs

/-- Python `needle in hay` on strings: substring containment. -/
def pyIn (needle hay : String) : Bool :=
  go needle.data hay.data
where
  go (n : List Char) : List Char → Bool
    | [] => n.isEmpty
    | c :: rest => charsPref n (c :: rest) || go n rest

/-- One execution-log entry (`FlowExecutionContext.log`, lines 64-82).  The
wall-clock `timestamp` and the optional `details` payload carry no information
any claim consults and are omitted. -/
structure LogEntry where
  node_id : String
  node_type : String
  action : String
  message : String
  success : Bool
deriving DecidableEq, Repr

/-- A call actually made to an external collaborator.  This audit channel is
not a field of the Python context; it records which side effects the run
performed (appended when the collaborator call returns). -/
inductive Effect where
  | igText (recipient : Value) (text : String) (igid : Value)
  | igMedia (recipient : Value) (mediaUrl : Value) (igid : Value)
  | waMessage (conversationId : Value) (text : String) (sender : Value)
  | commentReply (commentId : Value) (text : String) (igid : Value)
  | privateReply (commentId : Value) (text : String) (igid : Value)
  | tagAdded (conversationId : Value) (tag : String)
  | tagRemoved (conversationId : Value) (tag : String)
  | fieldSet (conversationId : Value) (field : String) (value : String)
  | httpRequest (method : String) (url : String)
  | slept (seconds : Int)
deriving Repr

/-- The mutable part of `FlowExecutionContext` (lines 30-62) that execution
reads and writes. -/
structure Ctx where
  execution_id : String
  org_id : String
  flow_id : String
  trigger_type : String
  trigger_data : List (String × Value)
  vars : List (String × Value)  -- `variables` in the source (reserved token in Lean 4)
  logs : List LogEntry
  status : String
  error : Option String
  created_at : Int
  completed_at : Option Int
  effects : List Effect
deriving Repr

namespace Ctx

/-- `FlowExecutionContext.log` (64-82). -/
def log (c : Ctx) (nodeId nodeType action message : String) (success : Bool) :
    Ctx :=
  { c with logs := c.logs ++
      [{ node_id := nodeId, node_type := nodeType, action := action,
         message := message, success := success }] }

/-- `FlowExecutionContext.set_variable` (84-86). -/
def set_variable (c : Ctx) (k : String) (v : Value) : Ctx :=
  { c with vars := dictSet c.vars k v }

/-- Append an audit-channel effect. -/
def withEffect (c : Ctx) (e : Effect) : Ctx :=
  { c with effects := c.effects ++ [e] }

/-- `FlowExecutionContext.mark_success` (117-120). -/
def mark_success (c : Ctx) (now : Int) : Ctx :=
  { c with status := "success", completed_at := some now }

/-- `FlowExecutionContext.mark_failed` (122-130); the error dict is reduced to
its message. -/
def mark_failed (c : Ctx) (errMsg : String) (now : Int) : Ctx :=
  { c with status := "failed", error := some errMsg, completed_at := some now }

end Ctx

/-- `FlowExecutionContext.get_variable` (88-100): split the key on `"."` and
walk the nested dicts under the variables mapping; any miss or non-dict
intermediate yields Python `None` (`vnone` here). -/
def get_variable (vars : List (String × Value)) (key : String) : Value :=
  walkGV (Value.vdict vars) (pySplitDot key)
where
  walkGV : Value → List String → Value
    | v, [] => v
    | Value.vdict fields, p :: ps =>
        (match dictGet fields p with
          | some v => walkGV v ps
          | none => Value.vnone)
    | _, _ :: _ => Value.vnone

/-- The capture resolver of `FlowExecutionContext.replace_variables`
(102-115): strip the capture, look it up through `get_variable`, keep the
placeholder for `None`. -/
def ctxResolve (vars : List (String × Value)) (raw : String) : Option String :=
  match get_variable vars (pyStrip raw) with
  | Value.vnone => none
  | v => some v.pyStr

/-- `FlowExecutionContext.replace_variables` (102-115) on a string input. -/
def ctx_replace_variables (vars : List (String × Value)) (text : String) :
    String :=
  String.mk (substChars (ctxResolve vars) text.data)

/-- `_get_next_nodes` (automation_execution.py 460-462). -/
def get_next_nodes (nodeId : String) (conns : List Conn) : List String :=
  (conns.filter fun c => c.source == nodeId).map fun c => c.target

/-- `_get_conditional_next_nodes` (automation_execution.py 465-481): collect
the targets of this node's connections whose lowercased `sourceHandle`
contains `"true"`/`"false"` according to the result; when none matches,
fall back to every outgoing connection. -/
def get_conditional_next_nodes (nodeId : String) (conns : List Conn)
    (conditionResult : Bool) : List String :=
  let resultStr := if conditionResult then "true" else "false"
  let matching := (conns.filter fun c =>
      c.source == nodeId && pyIn resultStr (pyLower c.sourceHandle)).map
    fun c => c.target
  if matching.isEmpty then get_next_nodes nodeId conns else matching

/-- The conditional-routing rule exactly as the claim words it: follow the
connections whose source-handle string contains the substring
`"true"`/`"false"` (no lowercasing), else follow all outgoing connections.
(Spec-side definition, compared against `get_conditional_next_nodes`.) -/
def claimConditionalNextNodes (nodeId : String) (conns : List Conn)
    (conditionResult : Bool) : List String :=
  let resultStr := if conditionResult then "true" else "false"
  let matching := (conns.filter fun c =>
      c.source == nodeId && pyIn resultStr c.sourceHandle).map
    fun c => c.target
  if matching.isEmpty then get_next_nodes nodeId conns else matching

/-- The behaviour of the external world during one execution: each field is
the outcome of one collaborator call; `Except.error` models the awaited call
raising.  `pickIdx` drives `random.choice`; `floatGt`/`floatLt` abstract the
`float(...)` coercions of the condition evaluator (`none` = coercion
raised). -/
structure Env where
  now : Int
  sendIG : Value → String → Value → Except String Value
  sendIGMedia : Value → Value → Value → Except String Value
  sendWA : Value → String → Value → Except String Value
  replyComment : Value → String → Value → Except String Unit
  privateReply : Value → String → Value → Option String → Except String Value
  dbAddTag : Value → String → Except String Bool
  dbRemoveTag : Value → String → Except String Bool
  dbSetField : Value → String → String → Except String Bool
  http : String → String → String → Except String (Int × Value)
  pickIdx : List String → Nat
  floatGt : Value → Value → Option Bool
  floatLt : Value → Value → Option Bool

/-- `result and result.get("message_id")`: the message id of a send result
dict. -/
def msgIdOf (v : Value) : Value :=
  match v with
  | Value.vdict d => dictGetD d "message_id" Value.vnone
  | _ => Value.vnone

/-- `execute_message_node` (automation_actions.py 97-181).  The second
component is a raised exception: the only raising path is a `content` config
entry that is present but not a dict, which crashes `content.get` before the
handler's own `try` (line 113). -/
def execute_message_node (env : Env) (ctx : Ctx) (nodeId : String)
    (cfg : List (String × Value)) : Ctx × Option String :=
  let td := ctx.trigger_data
  let platform := dictGetD td "platform" Value.vnone
  match dictGet cfg "content" with
  | some (Value.vstr _) | some (Value.vint _) | some (Value.vbool _)
  | some (Value.vlist _) | some Value.vnone =>
      (ctx, some "AttributeError: content has no attribute get")
  | content? =>
      let content := match content? with
        | some (Value.vdict d) => d
        | _ => []
      let text := replaceVariablesVal (dictGetD content "text" (Value.vstr ""))
        ctx.vars
      let media_url := dictGetD content "media_url" Value.vnone
      let ctx1 := ctx.log nodeId "message" "executing"
        ("Sending message: " ++ pyTake text 50 ++ "...") true
      if valueEqStr platform "instagram" then
        let customer_id := pyOr (dictGetD td "customer_id" Value.vnone)
          (dictGetD td "commenter_id" Value.vnone)
        let instagram_id := dictGetD td "platform_id" Value.vnone
        if !customer_id.truthy || !instagram_id.truthy then
          (ctx1.log nodeId "message" "error"
            "Missing customer_id or instagram_id" false, none)
        else
          let sent := if media_url.truthy then
              env.sendIGMedia customer_id media_url instagram_id
            else env.sendIG customer_id text instagram_id
          match sent with
          | Except.error e =>
              (ctx1.log nodeId "message" "error"
                ("Error sending message: " ++ e) false, none)
          | Except.ok result =>
              let eff := if media_url.truthy then
                  Effect.igMedia customer_id media_url instagram_id
                else Effect.igText customer_id text instagram_id
              let ctx2 := ctx1.withEffect eff
              if result.truthy && (msgIdOf result).truthy then
                ((ctx2.log nodeId "message" "success"
                    "Message sent successfully" true).set_variable
                  "last_message_id" (msgIdOf result), none)
              else
                (ctx2.log nodeId "message" "error" "Failed to send message"
                  false, none)
      else if valueEqStr platform "whatsapp" then
        let conversation_id := dictGetD td "conversation_id" Value.vnone
        let whatsapp_id := dictGetD td "platform_id" Value.vnone
        if !conversation_id.truthy || !whatsapp_id.truthy then
          (ctx1.log nodeId "message" "error"
            "Missing conversation_id or whatsapp_id" false, none)
        else
          match env.sendWA conversation_id text whatsapp_id with
          | Except.error e =>
              (ctx1.log nodeId "message" "error"
                ("Error sending message: " ++ e) false, none)
          | Except.ok result =>
              let ctx2 := ctx1.withEffect
                (Effect.waMessage conversation_id text whatsapp_id)
              if result.truthy && (msgIdOf result).truthy then
                (ctx2.log nodeId "message" "success" "WhatsApp message sent"
                  true, none)
              else
                (ctx2.log nodeId "message" "error"
                  "Failed to send WhatsApp message" false, none)
      else (ctx1, none)

/-- `execute_reply_to_comment` (automation_actions.py 188-221). -/
def execute_reply_to_comment (env : Env) (ctx : Ctx) (nodeId : String)
    (cfg : List (String × Value)) : Ctx × Option String :=
  let td := ctx.trigger_data
  let comment_id := dictGetD td "comment_id" Value.vnone
  let ig_account_id := dictGetD td "platform_id" Value.vnone
  if !comment_id.truthy || !ig_account_id.truthy then
    (ctx.log nodeId "reply_to_comment" "error"
      "Missing comment_id or ig_account_id" false, none)
  else
    let reply_text := replaceVariablesVal (dictGetD cfg "text" (Value.vstr ""))
      ctx.vars
    let ctx1 := ctx.log nodeId "reply_to_comment" "executing"
      ("Replying to comment " ++ comment_id.pyStr) true
    match env.replyComment comment_id reply_text ig_account_id with
    | Except.error e =>
        (ctx1.log nodeId "reply_to_comment" "error" ("Failed to reply: " ++ e)
          false, none)
    | Except.ok _ =>
        (((ctx1.withEffect
            (Effect.commentReply comment_id reply_text ig_account_id)).log
          nodeId "reply_to_comment" "success" "Comment reply sent successfully"
          true).set_variable "reply_sent" (Value.vbool true), none)

/-- `execute_send_dm` (automation_actions.py 224-281). -/
def execute_send_dm (env : Env) (ctx : Ctx) (nodeId : String)
    (cfg : List (String × Value)) : Ctx × Option String :=
  let td := ctx.trigger_data
  let comment_id := dictGetD td "comment_id" Value.vnone
  let ig_account_id := dictGetD td "platform_id" Value.vnone
  if !comment_id.truthy || !ig_account_id.truthy then
    (ctx.log nodeId "send_dm" "error" "Missing comment_id or ig_account_id"
      false, none)
  else
    let message_text := replaceVariablesVal
      (dictGetD cfg "text" (Value.vstr "")) ctx.vars
    let link_url := dictGet cfg "link_url"
    let has_valid_link := match link_url with
      | some (Value.vstr s) =>
          !(pyStrip s == "") &&
            (charsPref "http://".data s.data || charsPref "https://".data s.data)
      | _ => false
    let linkArg := if has_valid_link then
        match link_url with
        | some (Value.vstr s) => some s
        | _ => none
      else none
    let ctx1 := ctx.log nodeId "send_dm" "executing"
      ("Sending DM via comment " ++ comment_id.pyStr) true
    match env.privateReply comment_id message_text ig_account_id linkArg with
    | Except.error e =>
        (ctx1.log nodeId "send_dm" "error" ("Failed to send DM: " ++ e) false,
         none)
    | Except.ok result =>
        let ctx2 := ctx1.withEffect
          (Effect.privateReply comment_id message_text ig_account_id)
        if result.truthy then
          ((ctx2.log nodeId "send_dm" "success" "DM sent successfully"
              true).set_variable "dm_sent" (Value.vbool true), none)
        else
          (ctx2.log nodeId "send_dm" "error" "Failed to send DM" false, none)

/-- `execute_add_tag` (automation_actions.py 288-324). -/
def execute_add_tag (env : Env) (ctx : Ctx) (nodeId : String)
    (cfg : List (String × Value)) : Ctx × Option String :=
  let td := ctx.trigger_data
  let tag_name0 := dictGetD cfg "tag_name" (Value.vstr "")
  let conversation_id := dictGetD td "conversation_id" Value.vnone
  if !tag_name0.truthy || !conversation_id.truthy then
    (ctx.log nodeId "add_tag" "error" "Missing tag_name or conversation_id"
      false, none)
  else
    let tag_name := replaceVariablesVal tag_name0 ctx.vars
    let ctx1 := ctx.log nodeId "add_tag" "executing"
      ("Adding tag \x27" ++ tag_name ++ "\x27") true
    match env.dbAddTag conversation_id tag_name with
    | Except.error e =>
        (ctx1.log nodeId "add_tag" "error" ("Error adding tag: " ++ e) false,
         none)
    | Except.ok modified =>
        let ctx2 := ctx1.withEffect (Effect.tagAdded conversation_id tag_name)
        if modified then
          (ctx2.log nodeId "add_tag" "success"
            ("Tag \x27" ++ tag_name ++ "\x27 added") true, none)
        else
          (ctx2.log nodeId "add_tag" "info"
            ("Tag \x27" ++ tag_name ++ "\x27 already present") true, none)

/-- `execute_remove_tag` (automation_actions.py 327-354). -/
def execute_remove_tag (env : Env) (ctx : Ctx) (nodeId : String)
    (cfg : List (String × Value)) : Ctx × Option String :=
  let td := ctx.trigger_data
  let tag_name0 := dictGetD cfg "tag_name" (Value.vstr "")
  let conversation_id := dictGetD td "conversation_id" Value.vnone
  if !tag_name0.truthy || !conversation_id.truthy then
    (ctx.log nodeId "remove_tag" "error" "Missing tag_name or conversation_id"
      false, none)
  else
    let tag_name := replaceVariablesVal tag_name0 ctx.vars
    let ctx1 := ctx.log nodeId "remove_tag" "executing"
      ("Removing tag \x27" ++ tag_name ++ "\x27") true
    match env.dbRemoveTag conversation_id tag_name with
    | Except.error e =>
        (ctx1.log nodeId "remove_tag" "error" ("Error removing tag: " ++ e)
          false, none)
    | Except.ok modified =>
        let ctx2 := ctx1.withEffect
          (Effect.tagRemoved conversation_id tag_name)
        if modified then
          (ctx2.log nodeId "remove_tag" "success"
            ("Tag \x27" ++ tag_name ++ "\x27 removed") true, none)
        else
          (ctx2.log nodeId "remove_tag" "info"
            ("Tag \x27" ++ tag_name ++ "\x27 not present") true, none)

/-- `execute_set_custom_field` (automation_actions.py 357-396). -/
def execute_set_custom_field (env : Env) (ctx : Ctx) (nodeId : String)
    (cfg : List (String × Value)) : Ctx × Option String :=
  let td := ctx.trigger_data
  let field_name0 := dictGetD cfg "field_name" (Value.vstr "")
  let field_value0 := dictGetD cfg "field_value" (Value.vstr "")
  let conversation_id := dictGetD td "conversation_id" Value.vnone
  if !field_name0.truthy || !conversation_id.truthy then
    (ctx.log nodeId "set_field" "error" "Missing field_name or conversation_id"
      false, none)
  else
    let field_name := replaceVariablesVal field_name0 ctx.vars
    let field_value := replaceVariablesVal field_value0 ctx.vars
    let ctx1 := ctx.log nodeId "set_field" "executing"
      ("Setting " ++ field_name ++ " = " ++ field_value) true
    match env.dbSetField conversation_id field_name field_value with
    | Except.error e =>
        (ctx1.log nodeId "set_field" "error" ("Error setting field: " ++ e)
          false, none)
    | Except.ok matched =>
        let ctx2 := ctx1.withEffect
          (Effect.fieldSet conversation_id field_name field_value)
        if matched then
          (ctx2.log nodeId "set_field" "success"
            ("Field \x27" ++ field_name ++ "\x27 set") true, none)
        else
          (ctx2.log nodeId "set_field" "warning" "Contact not found" false,
           none)

/-- `execute_http_request` (automation_actions.py 403-466).  The JSON parse of
the resolved body (with its silent fallback to `\x7b\x7d`) happens behind the
`http` oracle, which receives the resolved body string. -/
def execute_http_request (env : Env) (ctx : Ctx) (nodeId : String)
    (cfg : List (String × Value)) : Ctx × Option String :=
  let url0 := dictGetD cfg "api_url" (Value.vstr "")
  match dictGetD cfg "api_method" (Value.vstr "POST") with
  | Value.vstr method0 =>
      let method := pyUpper method0
      let body_str0 := dictGetD cfg "api_body" (Value.vstr "\x7b\x7d")
      if !url0.truthy then
        (ctx.log nodeId "api" "error" "Missing api_url" false, none)
      else
        let url := replaceVariablesVal url0 ctx.vars
        let body_str := replaceVariablesVal body_str0 ctx.vars
        let ctx1 := ctx.log nodeId "api" "executing" (method ++ " " ++ url)
          true
        if method == "GET" || method == "POST" || method == "PUT" ||
            method == "DELETE" then
          match env.http method url body_str with
          | Except.error e =>
              (ctx1.log nodeId "api" "error" ("HTTP request failed: " ++ e)
                false, none)
          | Except.ok (code, body) =>
              let ctx2 := ((ctx1.withEffect
                  (Effect.httpRequest method url)).set_variable
                "http_status_code" (Value.vint code)).set_variable
                "http_response" body
              if 200 ≤ code && code < 300 then
                (ctx2.log nodeId "api" "success" ("HTTP " ++ toString code)
                  true, none)
              else
                (ctx2.log nodeId "api" "warning" ("HTTP " ++ toString code)
                  true, none)
        else
          (ctx1.log nodeId "api" "error" ("Unsupported method: " ++ method)
            false, none)
  | _ =>
      -- `.upper()` on a non-string `api_method` raises before any logging
      (ctx, some "AttributeError: api_method has no attribute upper")

/-- `_execute_delay_node` (automation_actions.py 473-505): scale
`amount`/`unit`, cap at 300 seconds, sleep.  A non-integer `amount` makes the
arithmetic or the `min` raise. -/
def execute_delay_node (env : Env) (ctx : Ctx) (nodeId : String)
    (cfg : List (String × Value)) : Ctx × Option String :=
  let _ := env
  match dictGet cfg "amount" with
  | some (Value.vint _) | some (Value.vbool _) | none =>
      -- Python bools are ints: `True * 60` is `60`
      let amount := match dictGet cfg "amount" with
        | some (Value.vint k) => k
        | some (Value.vbool b) => if b then 1 else 0
        | _ => 1
      let unit := dictGetD cfg "unit" (Value.vstr "seconds")
      let delay :=
        if valueEqStr unit "minutes" then amount * 60
        else if valueEqStr unit "hours" then amount * 3600
        else if valueEqStr unit "days" then amount * 86400
        else amount
      let delay := min delay 300
      let ctx1 := ctx.log nodeId "delay" "executing"
        ("Delaying " ++ toString delay ++ "s") true
      let ctx2 := ctx1.withEffect (Effect.slept delay)
      (ctx2.log nodeId "delay" "success" "Delay completed" true, none)
  | some _ => (ctx, some "TypeError: unsupported delay amount")

/-- `execute_action_node` (automation_actions.py 14-90): dispatch on
`config["action_type"]` first, then on the node type, with an unknown-type
log as the fallback; the surrounding `try/except` turns any exception from a
handler into an `error` log entry (`success=False`) and returns normally, so
this function never propagates an exception. -/
def execute_action_node (env : Env) (ctx : Ctx) (nodeId nodeType : String)
    (cfg : List (String × Value)) : Ctx × Option String :=
  let actionType := dictGetD cfg "action_type" Value.vnone
  let inner : Ctx × Option String :=
    if valueEqStr actionType "reply_to_comment" then
      execute_reply_to_comment env ctx nodeId cfg
    else if valueEqStr actionType "send_dm" then
      execute_send_dm env ctx nodeId cfg
    else if valueEqStr actionType "add_tag" then
      execute_add_tag env ctx nodeId cfg
    else if valueEqStr actionType "remove_tag" then
      execute_remove_tag env ctx nodeId cfg
    else if valueEqStr actionType "set_field" then
      execute_set_custom_field env ctx nodeId cfg
    else if valueEqStr actionType "api" then
      execute_http_request env ctx nodeId cfg
    else if nodeType == "message" then
      execute_message_node env ctx nodeId cfg
    else if nodeType == "smart_delay" then
      execute_delay_node env ctx nodeId cfg
    else
      (ctx.log nodeId nodeType "unknown"
        ("Unknown action type: " ++ nodeType ++ "/" ++ actionType.pyStr)
        false, none)
  match inner.2 with
  | some e =>
      (inner.1.log nodeId nodeType "error" ("Error executing action: " ++ e)
        false, none)
  | none => inner

/-- `_execute_condition_node` (automation_execution.py 382-427).  The third
component is the evaluated boolean; the second is a raised exception: a
missing or non-string `variable` crashes `get_variable`'s `key.split`, and a
non-string `value` under `contains`/`not_contains` with a truthy variable
crashes the `in` operator. -/
def execute_condition_node (env : Env) (ctx : Ctx) (nodeId : String)
    (cfg : List (String × Value)) : Ctx × Option String × Bool :=
  match dictGet cfg "variable" with
  | some (Value.vstr varName) =>
      let op := dictGetD cfg "operator" Value.vnone
      let value := dictGetD cfg "value" Value.vnone
      let var_value := get_variable ctx.vars varName
      let result? : Except String Bool :=
        if valueEqStr op "equals" then
          Except.ok (var_value.pyStr == value.pyStr)
        else if valueEqStr op "not_equals" then
          Except.ok (!(var_value.pyStr == value.pyStr))
        else if valueEqStr op "contains" then
          if var_value.truthy then
            match value with
            | Value.vstr s => Except.ok (pyIn s var_value.pyStr)
            | _ => Except.error "TypeError: in requires string"
          else Except.ok false
        else if valueEqStr op "not_contains" then
          if var_value.truthy then
            match value with
            | Value.vstr s => Except.ok (!pyIn s var_value.pyStr)
            | _ => Except.error "TypeError: in requires string"
          else Except.ok true
        else if valueEqStr op "greater_than" then
          Except.ok ((env.floatGt var_value value).getD false)
        else if valueEqStr op "less_than" then
          Except.ok ((env.floatLt var_value value).getD false)
        else Except.ok false
      match result? with
      | Except.error e => (ctx, some e, false)
      | Except.ok result =>
          (ctx.log nodeId "condition" "condition_evaluated"
            ("Condition evaluated: " ++ varName ++ " " ++ op.pyStr ++ " " ++
              value.pyStr ++ " = " ++ (Value.vbool result).pyStr) true,
           none, result)
  | _ =>
      -- `variable` missing or not a string: `key.split` raises
      (ctx, some "AttributeError: variable has no attribute split", false)

/-- `_execute_randomizer_node` (automation_execution.py 430-457): pick one
outgoing target via the randomness oracle; `none` when there is no outgoing
connection. -/
def execute_randomizer_node (env : Env) (ctx : Ctx) (nodeId : String)
    (conns : List Conn) : Ctx × Option String :=
  let next_nodes := get_next_nodes nodeId conns
  if next_nodes.isEmpty then (ctx, none)
  else
    let selected := next_nodes.getD (env.pickIdx next_nodes % next_nodes.length)
      ""
    (ctx.log nodeId "randomizer" "path_selected"
      ("Randomly selected path to: " ++ selected) true, some selected)

/-- The trigger node types `_execute_node` passes through (lines 296-299). -/
def isTriggerNodeType (t : String) : Bool :=
  t == "instagram_dm_received" || t == "instagram_comment" ||
  t == "instagram_story_reply" || t == "instagram_story_mention" ||
  t == "whatsapp_message_received" || t == "contact_tag_added" ||
  t == "contact_tag_removed"

/-- `_execute_node` (automation_execution.py 260-342).  The fuel argument
models the host call stack: the source recurses without cycle detection, so a
cyclic graph exhausts it (reported as a raised exception, as Python's
`RecursionError` would be).  The second component of the result is the
exception propagating out of the node (`raise` at line 342, after the
`node_error` log).  The `for next_node_id in next_nodes` loops are folds in
which an exception from a child aborts the remaining siblings and
propagates. -/
def execute_node (env : Env) (nodes : List (String × Node))
    (conns : List Conn) : Nat → Ctx → String → Ctx × Option String
  | 0, ctx, _ => (ctx, some "RecursionError: maximum recursion depth exceeded")
  | fuel + 1, ctx, nodeId =>
      match nodeGet nodes nodeId with
      | none =>
          (ctx.log nodeId "unknown" "node_not_found"
            ("Node " ++ nodeId ++ " not found in flow") false, none)
      | some node =>
          let ctx1 := ctx.log nodeId node.type "node_start"
            ("Executing node: " ++ node.type) true
          let body : Ctx × Option String :=
            if isTriggerNodeType node.type then
              let ctx2 := ctx1.log nodeId node.type "trigger"
                ("Trigger node: " ++ node.type) true
              (get_next_nodes nodeId conns).foldl
                (fun acc n =>
                  match acc with
                  | (c, some e) => (c, some e)
                  | (c, none) => execute_node env nodes conns fuel c n)
                (ctx2, none)
            else if node.type == "condition" then
              match execute_condition_node env ctx1 nodeId node.config with
              | (ctx2, some e, _) => (ctx2, some e)
              | (ctx2, none, result) =>
                  (get_conditional_next_nodes nodeId conns result).foldl
                    (fun acc n =>
                      match acc with
                      | (c, some e) => (c, some e)
                      | (c, none) => execute_node env nodes conns fuel c n)
                    (ctx2, none)
            else if node.type == "randomizer" then
              match execute_randomizer_node env ctx1 nodeId conns with
              | (ctx2, some nextId) =>
                  -- `if next_node_id:` — an empty-string id is falsy
                  if nextId == "" then (ctx2, none)
                  else execute_node env nodes conns fuel ctx2 nextId
              | (ctx2, none) => (ctx2, none)
            else
              match execute_action_node env ctx1 nodeId node.type node.config
                with
              | (ctx2, some e) => (ctx2, some e)
              | (ctx2, none) =>
                  (get_next_nodes nodeId conns).foldl
                    (fun acc n =>
                      match acc with
                      | (c, some e) => (c, some e)
                      | (c, none) => execute_node env nodes conns fuel c n)
                    (ctx2, none)
          match body with
          | (c, some e) =>
              (c.log nodeId node.type "node_error"
                ("Error executing node: " ++ e) false, some e)
          | ok => ok

/-- The child-list execution loop of `_execute_node`, as a standalone
function: run the nodes in order, short-circuiting on a raised exception. -/
def execute_node_list (env : Env) (nodes : List (String × Node))
    (conns : List Conn) (fuel : Nat) (ctx : Ctx) (l : List String) :
    Ctx × Option String :=
  l.foldl
    (fun acc n =>
      match acc with
      | (c, some e) => (c, some e)
      | (c, none) => execute_node env nodes conns fuel c n)
    (ctx, none)

/-- The variable seeding of `FlowExecutionContext.__init__` (lines 33-61). -/
def mkContext (now : Int) (orgId flowId triggerType : String)
    (triggerData : List (String × Value)) (execId : String) : Ctx :=
  let g := fun k => dictGetD triggerData k Value.vnone
  { execution_id := execId, org_id := orgId, flow_id := flowId,
    trigger_type := triggerType, trigger_data := triggerData,
    vars := [
      ("trigger_data", Value.vdict triggerData),
      ("customer_name", pyOr (g "customer_name") (g "commenter_username")),
      ("customer_username",
        pyOr (g "customer_username") (g "commenter_username")),
      ("customer_id", pyOr (g "customer_id") (g "commenter_id")),
      ("comment_text", pyOr (g "comment_text") (g "message_text")),
      ("comment_id", g "comment_id"),
      ("post_id", g "post_id"),
      ("platform", g "platform"),
      ("platform_id", g "platform_id"),
      ("execution_id", Value.vstr execId),
      ("org_id", Value.vstr orgId),
      ("flow_id", Value.vstr flowId)],
    logs := [], status := "running", error := none, created_at := now,
    completed_at := none, effects := [] }

/-- The persisted execution record (`FlowExecutionContext.to_dict`, lines
132-151), restricted to the fields the claims consult. -/
structure ExecDoc where
  execution_id : String
  flow_id : String
  org_id : String
  status : String
  trigger_type : String
  logs : List LogEntry
  error : Option String
  created_at : Int
  completed_at : Option Int
deriving Repr

/-- `FlowExecutionContext.to_dict`. -/
def Ctx.to_dict (c : Ctx) : ExecDoc :=
  { execution_id := c.execution_id, flow_id := c.flow_id, org_id := c.org_id,
    status := c.status, trigger_type := c.trigger_type, logs := c.logs,
    error := c.error, created_at := c.created_at,
    completed_at := c.completed_at }

/-- `increment_execution_count` (automation_service.py 384-400). -/
def increment_execution_count (flows : List FlowDoc) (orgId flowId : String)
    (now : Int) : List FlowDoc :=
  updateFirstFlow flows orgId flowId fun f =>
    { f with execution_count := f.execution_count + 1,
             last_executed_at := some now }

/-- The trigger-type aliasing map of `execute_automation_flow` (lines
202-208). -/
def eventToTriggerType (t : String) : String :=
  if t == "post_comment" then "instagram_comment"
  else if t == "story_reply" then "instagram_story_reply"
  else if t == "message_received" then "instagram_dm_received"
  else t

/-- The trigger scan of `execute_automation_flow` (lines 210-219): the first
trigger whose type matches determines `start_node_id`; a missing match, a
missing id or a falsy empty id leaves it unset. -/
def findStartNode (triggers : List TriggerCfg) (expected : String) :
    Option String :=
  match triggers.find? fun t => t.type == expected with
  | none => none
  | some t =>
      match t.start_node_id with
      | none => none
      | some sid => if sid == "" then none else some sid

/-- `execute_automation_flow` (automation_execution.py 155-257): create the
context, run the guarded body, on any raised exception mark the context
failed, and in the `finally` block insert exactly one execution record and
bump the flow's `execution_count` iff the run was a success.  Returns the new
flow store, the new executions collection and the inserted record. -/
def execute_automation_flow (env : Env) (fuel : Nat) (flows : List FlowDoc)
    (execs : List ExecDoc) (orgId flowId triggerType : String)
    (triggerData : List (String × Value)) (execId : String) :
    List FlowDoc × List ExecDoc × ExecDoc :=
  let ctx0 := mkContext env.now orgId flowId triggerType triggerData execId
  let body : Ctx × Option String :=
    match findFlow flows orgId flowId with
    | none => (ctx0, some ("Flow " ++ flowId ++ " not found"))
    | some flow =>
        if !(flow.status == "published") then
          (ctx0, some ("Flow " ++ flowId ++ " is not published"))
        else
          let ctx1 := ctx0.log "system" "system" "execution_start"
            ("Starting execution of flow: " ++ flow.name) true
          let fd := flow.flow_data
          let expected := eventToTriggerType triggerType
          match findStartNode fd.triggers expected with
          | none =>
              (ctx1, some ("No matching trigger found for type: " ++ expected))
          | some startId =>
              match execute_node env fd.nodes fd.connections fuel ctx1 startId
                with
              | (c, some e) => (c, some e)
              | (c, none) =>
                  ((c.mark_success env.now).log "system" "system"
                    "execution_complete"
                    "Flow execution completed successfully" true, none)
  let ctxF : Ctx :=
    match body with
    | (c, some e) =>
        (c.mark_failed e env.now).log "system" "system" "execution_failed"
          ("Flow execution failed: " ++ e) false
    | (c, none) => c
  let record := ctxF.to_dict
  let flows' := if record.status == "success" then
      increment_execution_count flows orgId flowId env.now
    else flows
  (flows', execs ++ [record], record)

/-!
## Concrete fixtures for witnesses and counterexamples
-/

/-- A pristine pending follow-up job. -/
def baseJob : Job :=
  { job_id := "j1", org_id := "org1", flow_id := "f1",
    conversation_id := "conv1", scheduled_at := 1000, status := "pending",
    created_at := 900, executed_at := none, cancelled_at := none,
    cancel_reason := none, retry_count := 0, max_retries := none,
    error := none, action_start_node_id := none, delay_seconds := none }

/-- A flow that violates every publish-validity condition of the claim: no
nodes, a dangling connection, and an empty trigger list. -/
def flowBad : FlowDoc :=
  { flow_id := "f1", org_id := "org1", name := "bad",
    status := "draft",
    flow_data := { nodes := [], connections := [⟨"a", "b", ""⟩],
                   triggers := [] },
    published_at := none, updated_at := 0, execution_count := 0,
    last_executed_at := none }

/-- A deterministic environment for witnesses: every collaborator call
succeeds with a fixed answer except the WhatsApp send, which raises. -/
def envW : Env :=
  { now := 5000,
    sendIG := fun _ _ _ =>
      Except.ok (Value.vdict [("message_id", Value.vstr "mid1")]),
    sendIGMedia := fun _ _ _ =>
      Except.ok (Value.vdict [("message_id", Value.vstr "mid2")]),
    sendWA := fun _ _ _ => Except.error "network down",
    replyComment := fun _ _ _ => Except.ok (),
    privateReply := fun _ _ _ _ => Except.ok (Value.vbool true),
    dbAddTag := fun _ _ => Except.ok true,
    dbRemoveTag := fun _ _ => Except.ok true,
    dbSetField := fun _ _ _ => Except.ok true,
    http := fun _ _ _ => Except.ok (200, Value.vdict []),
    pickIdx := fun _ => 0,
    floatGt := fun _ _ => none,
    floatLt := fun _ _ => none }

/-- Connections of a condition node `n` whose handles are `"TRUE"` (upper
case) and `""`. -/
def connsUpper : List Conn := [⟨"n", "t1", "TRUE"⟩, ⟨"n", "t2", ""⟩]

/-- Two-node graph for the action-failure witness: a WhatsApp `message` node
followed by an unknown downstream node. -/
def nodesMsg : List (String × Node) :=
  [("a1", { type := "message", config := [] }),
   ("a2", { type := "noop", config := [] })]

/-- The connection from the message node to its downstream node. -/
def connsMsg : List Conn := [⟨"a1", "a2", ""⟩]

/-- Trigger data for a WhatsApp event that lacks `conversation_id`. -/
def tdNoConv : List (String × Value) :=
  [("platform", Value.vstr "whatsapp"), ("platform_id", Value.vstr "wa9")]

/-- An execution context over `tdNoConv`. -/
def ctxNoConv : Ctx := mkContext 5000 "org1" "f1" "whatsapp_followup" tdNoConv
  "exec1"

/-- Trigger data for a WhatsApp event with both identifiers present. -/
def tdConv : List (String × Value) :=
  [("platform", Value.vstr "whatsapp"), ("platform_id", Value.vstr "wa9"),
   ("conversation_id", Value.vstr "conv77")]

/-- An execution context over `tdConv`. -/
def ctxConv : Ctx := mkContext 5000 "org1" "f1" "whatsapp_followup" tdConv
  "exec2"

/-- A condition node testing `platform equals whatsapp`. -/
def nodeC8 : Node :=
  { type := "condition",
    config := [("variable", Value.vstr "platform"),
               ("operator", Value.vstr "equals"),
               ("value", Value.vstr "whatsapp")] }

/-- One-node graph holding the condition node. -/
def nodesC8 : List (String × Node) := [("c1", nodeC8)]

/-- Outgoing connections of the condition node with `true`/`false` handles. -/
def connsC8 : List Conn := [⟨"c1", "x", "true_out"⟩, ⟨"c1", "y", "false_out"⟩]

/-!
## Helper lemmas
-/

theorem getD_map_lt {α β : Type} (f : α → β) (l : List α) (i : Nat) (d : β)
    (d' : α) (h : i < l.length) : (l.map f).getD i d = f (l.getD i d') := by
  induction l generalizing i with
  | nil => simp at h
  | cons a rest ih =>
      cases i with
      | zero => simp [List.getD]
      | succ n =>
          simp only [List.map_cons, List.getD_cons_succ]
          exact ih n (by simpa using h)

theorem getD_mem_of_lt {α : Type} (l : List α) (i : Nat) (d : α)
    (h : i < l.length) : l.getD i d ∈ l := by
  induction l generalizing i with
  | nil => simp at h
  | cons a rest ih =>
      cases i with
      | zero => simp [List.getD]
      | succ n =>
          simp only [List.getD_cons_succ]
          exact List.mem_cons_of_mem _ (ih n (by simpa using h))

/-!
## C1 — the firing callback's claim race
-/

/-- C1: the claim states that a firing attempt proceeds to execute only when
its conditional update actually modified the document, and that of N
concurrent attempts exactly one proceeds.  The code instead gates on a
re-fetched status being `"running"`: under the interleaving
read-A, read-B, update-A, update-B, refetch-A, refetch-B of two attempts on
one pending job, attempt A modifies the document (count 1) and proceeds, and
attempt B modifies nothing (count 0) yet also proceeds — two executions of
the same job. -/
theorem claim_race_double_execute :
    (runClaimRace
        { jobStatus := "pending", pcA := ClaimPC.start, pcB := ClaimPC.start }
        [true, false, true, false, true, false]).pcA = ClaimPC.done 1 true ∧
    (runClaimRace
        { jobStatus := "pending", pcA := ClaimPC.start, pcB := ClaimPC.start }
        [true, false, true, false, true, false]).pcB = ClaimPC.done 0 true :=
  ⟨rfl, rfl⟩

/-!
## C3 — retry-with-backoff on job failure
-/

/-- C3 counterexample: a claimed job with `retry_count = 0 < max_retries = 3`
whose execution fails is written to `status = "failed"` by
`_execute_scheduled_followup`'s failure branch — not returned to `pending`,
with neither the fire time pushed forward nor the retry count incremented,
contrary to the claim. -/
theorem followup_failure_counterexample :
    baseJob.retry_count < baseJob.max_retries.getD 3 ∧
    (followup_failure_update baseJob "send failed").status = "failed" ∧
    ¬ (followup_failure_update baseJob "send failed").status = "pending" ∧
    (followup_failure_update baseJob "send failed").retry_count
      = baseJob.retry_count ∧
    (followup_failure_update baseJob "send failed").scheduled_at
      = baseJob.scheduled_at := by
  refine ⟨by decide, rfl, by decide, rfl, rfl⟩

/-- C3 amended: the APScheduler callback path marks a failed claimed job
`failed` permanently regardless of its retry budget, leaving `retry_count`
and the fire time untouched; the 5-minute-backoff retry exists only in the
polling-worker path, whose `_handle_failure` computes
`can_retry = retry_count < max_retries` (default 3) and delegates to
`mark_followup_failed` (absent from the tree, modelled from the spec), which
returns the job to `pending` at `now + 300` with `retry_count + 1` when
retrying, else marks it `failed`. -/
theorem followup_failure_amended :
    (∀ (job : Job) (err : String),
      (followup_failure_update job err).status = "failed" ∧
      (followup_failure_update job err).retry_count = job.retry_count ∧
      (followup_failure_update job err).scheduled_at = job.scheduled_at) ∧
    (∀ (job : Job) (err : String) (now : Int),
      job.retry_count < job.max_retries.getD 3 →
      handle_failure job err true now =
        { job with status := "pending", scheduled_at := now + 300,
                   retry_count := job.retry_count + 1, error := some err }) ∧
    (∀ (job : Job) (err : String) (now : Int),
      ¬ job.retry_count < job.max_retries.getD 3 →
      handle_failure job err true now =
        { job with status := "failed", error := some err }) := by
  refine ⟨fun job err => ⟨rfl, rfl, rfl⟩, ?_, ?_⟩
  · intro job err now h
    simp [handle_failure, mark_followup_failed, h]
  · intro job err now h
    simp [handle_failure, mark_followup_failed, h]

/-- Witness for the amended C3 statement at concrete jobs. -/
theorem followup_failure_amended_witness :
    (followup_failure_update baseJob "e").status = "failed" ∧
    handle_failure baseJob "e" true 2000 =
      { baseJob with status := "pending", scheduled_at := 2300,
                     retry_count := 1, error := some "e" } ∧
    handle_failure { baseJob with retry_count := 3 } "e" true 2000 =
      { baseJob with retry_count := 3, status := "failed",
                     error := some "e" } :=
  ⟨(followup_failure_amended.1 baseJob "e").1,
   followup_failure_amended.2.1 baseJob "e" 2000 (by decide),
   followup_failure_amended.2.2 { baseJob with retry_count := 3 } "e" 2000
     (by decide)⟩

/-!
## C4 — stuck-job recovery on startup
-/

/-- C4 counterexample: a job left in status `"running"` (the literal the
firing callback writes) with `executed_at` 15 minutes in the past is NOT
reset by `_recover_stuck_jobs` — the recovery query matches only the
worker's claimed-status literal `"executing"`, so the claim as stated (on
status `running`) fails. -/
theorem recover_stuck_jobs_counterexample :
    (1000 : Int) - 100 > 600 ∧
    recover_stuck_jobs
        [{ baseJob with status := "running", executed_at := some 100 }]
        1000 =
      [{ baseJob with status := "running", executed_at := some 100 }] ∧
    ({ baseJob with status := "running", executed_at := some 100 } :
      Job).retry_count = 0 :=
  ⟨by decide, rfl, rfl⟩

/-- C4 amended: `_recover_stuck_jobs` resets exactly the jobs whose status is
the worker's claimed-for-execution literal `"executing"` (not `"running"`)
and whose `executed_at` lies strictly more than 600 seconds in the past, to
`pending` with `retry_count` incremented by exactly 1; every other job —
younger than the threshold, without an `executed_at`, or in any other status
(including `"running"`) — is left unchanged, and no document is created or
dropped. -/
theorem recover_stuck_jobs_spec :
    ∀ (jobs : List Job) (now : Int),
      (recover_stuck_jobs jobs now).length = jobs.length ∧
      ∀ (i : Nat) (d : Job), i < jobs.length →
        (((jobs.getD i d).status = "executing" ∧
            ∃ t, (jobs.getD i d).executed_at = some t ∧ t < now - 600) →
          (recover_stuck_jobs jobs now).getD i d =
            { jobs.getD i d with
                status := "pending",
                retry_count := (jobs.getD i d).retry_count + 1 }) ∧
        (¬ ((jobs.getD i d).status = "executing" ∧
            ∃ t, (jobs.getD i d).executed_at = some t ∧ t < now - 600) →
          (recover_stuck_jobs jobs now).getD i d = jobs.getD i d) := by
  intro jobs now
  refine ⟨by simp [recover_stuck_jobs], ?_⟩
  intro i d h
  have hmap := getD_map_lt (f := fun j : Job =>
    if j.status == "executing" &&
        (match j.executed_at with
          | some t => decide (t < now - 600)
          | none => false) then
      { j with status := "pending", retry_count := j.retry_count + 1 }
    else j) jobs i d d h
  constructor
  · rintro ⟨hs, t, ht, hlt⟩
    rw [recover_stuck_jobs, hmap]
    simp only []
    rw [hs, ht]
    simp [hlt]
  · intro hneg
    rw [recover_stuck_jobs, hmap]
    simp only []
    split
    · rename_i hcond
      exfalso
      apply hneg
      rcases Bool.and_eq_true _ _ |>.mp hcond with ⟨hs, hex⟩
      refine ⟨by simpa using hs, ?_⟩
      cases hexec : (jobs.getD i d).executed_at with
      | none => rw [hexec] at hex; simp at hex
      | some t =>
          rw [hexec] at hex
          exact ⟨t, rfl, by simpa using hex⟩
    · rfl

/-- Witness for C4: one stuck job (11 minutes old) and one fresh `executing`
job. -/
theorem recover_stuck_jobs_witness :
    (recover_stuck_jobs
        [{ baseJob with status := "executing", executed_at := some 100 },
         { baseJob with status := "executing", executed_at := some 900 }]
        1000).length = 2 ∧
    (recover_stuck_jobs
        [{ baseJob with status := "executing", executed_at := some 100 },
         { baseJob with status := "executing", executed_at := some 900 }]
        1000).getD 0 baseJob =
      { baseJob with status := "pending", executed_at := some 100,
                     retry_count := 1 } ∧
    (recover_stuck_jobs
        [{ baseJob with status := "executing", executed_at := some 100 },
         { baseJob with status := "executing", executed_at := some 900 }]
        1000).getD 1 baseJob =
      { baseJob with status := "executing", executed_at := some 900 } := by
  refine ⟨(recover_stuck_jobs_spec _ 1000).1, ?_, ?_⟩
  · have := ((recover_stuck_jobs_spec
      [{ baseJob with status := "executing", executed_at := some 100 },
       { baseJob with status := "executing", executed_at := some 900 }]
      1000).2 0 baseJob (by decide)).1 ⟨rfl, 100, rfl, by decide⟩
    simpa using this
  · have := ((recover_stuck_jobs_spec
      [{ baseJob with status := "executing", executed_at := some 100 },
       { baseJob with status := "executing", executed_at := some 900 }]
      1000).2 1 baseJob (by decide)).2 (by decide)
    simpa using this

/-!
## C5 — restore on startup
-/

theorem restore_pending_jobs_eq (jobs : List Job) (now : Int) :
    (restore_pending_jobs jobs now).1 = jobs.map (fun j =>
      if j.status == "pending" && decide (now - j.scheduled_at > 600) then
        { j with status := "cancelled", cancelled_at := some now,
                 cancel_reason := some "missed_overdue_on_restart" }
      else j) ∧
    (restore_pending_jobs jobs now).2 = (jobs.filter fun j =>
      j.status == "pending" && !decide (now - j.scheduled_at > 600)).map
        (fun j => j.job_id) := by
  induction jobs with
  | nil => exact ⟨rfl, rfl⟩
  | cons j rest ih =>
      obtain ⟨ih1, ih2⟩ := ih
      by_cases hp : (j.status == "pending") = true
      · have hp' : j.status = "pending" := by simpa using hp
        by_cases hov : now - j.scheduled_at > 600
        · simp [restore_pending_jobs, hp, hp', hov, ih1, ih2]
        · simp [restore_pending_jobs, hp, hp', hov, ih1, ih2]
      · rw [Bool.not_eq_true] at hp
        have hp' : ¬ j.status = "pending" := by simpa using hp
        simp [restore_pending_jobs, hp, hp', ih1, ih2]

/-- C5: on startup restoration every `pending` job overdue by strictly more
than 600 seconds is rewritten to `cancelled` with reason
`missed_overdue_on_restart`; every other `pending` job keeps its document
bit-for-bit unchanged and appears in the re-armed list, which consists
exactly of the within-threshold pending jobs (so an overdue job is never
fired); non-pending documents are untouched. -/
theorem restore_pending_jobs_spec :
    ∀ (jobs : List Job) (now : Int),
      (restore_pending_jobs jobs now).1.length = jobs.length ∧
      (restore_pending_jobs jobs now).2 = (jobs.filter fun j =>
        j.status == "pending" && !decide (now - j.scheduled_at > 600)).map
          (fun j => j.job_id) ∧
      ∀ (i : Nat) (d : Job), i < jobs.length →
        ((jobs.getD i d).status = "pending" →
          now - (jobs.getD i d).scheduled_at > 600 →
          (restore_pending_jobs jobs now).1.getD i d =
            { jobs.getD i d with
                status := "cancelled", cancelled_at := some now,
                cancel_reason := some "missed_overdue_on_restart" }) ∧
        ((jobs.getD i d).status = "pending" →
          ¬ now - (jobs.getD i d).scheduled_at > 600 →
          (restore_pending_jobs jobs now).1.getD i d = jobs.getD i d ∧
          (jobs.getD i d).job_id ∈ (restore_pending_jobs jobs now).2) ∧
        ((jobs.getD i d).status ≠ "pending" →
          (restore_pending_jobs jobs now).1.getD i d = jobs.getD i d) := by
  intro jobs now
  obtain ⟨h1, h2⟩ := restore_pending_jobs_eq jobs now
  refine ⟨by rw [h1]; simp, h2, ?_⟩
  intro i d h
  have hmem := getD_mem_of_lt jobs i d h
  set j := jobs.getD i d with hj
  have hmap := getD_map_lt (f := fun j : Job =>
    if j.status == "pending" && decide (now - j.scheduled_at > 600) then
      { j with status := "cancelled", cancelled_at := some now,
               cancel_reason := some "missed_overdue_on_restart" }
    else j) jobs i d d h
  rw [h1, hmap, ← hj]
  simp only []
  refine ⟨?_, ?_, ?_⟩
  · intro hs hov
    rw [hs]
    simp [hov]
  · intro hs hov
    rw [hs]
    simp only [beq_self_eq_true, Bool.true_and]
    rw [decide_eq_false hov]
    refine ⟨rfl, ?_⟩
    rw [h2]
    refine List.mem_map.mpr ⟨j, ?_, rfl⟩
    refine List.mem_filter.mpr ⟨hmem, ?_⟩
    rw [hs, decide_eq_false hov]
    simp
  · intro hs
    have hb : (j.status == "pending") = false := by
      simpa using hs
    simp [hb]

/-- Witness for C5: one 11-minutes-overdue pending job, one due-soon pending
job, one completed job, restored at `now = 1000`. -/
theorem restore_pending_jobs_witness :
    (restore_pending_jobs
        [{ baseJob with scheduled_at := 100 },
         { baseJob with job_id := "j2", scheduled_at := 950 },
         { baseJob with job_id := "j3", status := "completed" }]
        1000).1 =
      [{ baseJob with scheduled_at := 100, status := "cancelled",
                      cancelled_at := some 1000,
                      cancel_reason := some "missed_overdue_on_restart" },
       { baseJob with job_id := "j2", scheduled_at := 950 },
       { baseJob with job_id := "j3", status := "completed" }] ∧
    (restore_pending_jobs
        [{ baseJob with scheduled_at := 100 },
         { baseJob with job_id := "j2", scheduled_at := 950 },
         { baseJob with job_id := "j3", status := "completed" }]
        1000).2 = ["j2"] := by
  have hs := restore_pending_jobs_spec
    [{ baseJob with scheduled_at := 100 },
     { baseJob with job_id := "j2", scheduled_at := 950 },
     { baseJob with job_id := "j3", status := "completed" }] 1000
  have e0 := (hs.2.2 0 baseJob (by decide)).1 rfl (by decide)
  have e1 := ((hs.2.2 1 baseJob (by decide)).2.1 rfl (by decide)).1
  have e2 := (hs.2.2 2 baseJob (by decide)).2.2 (by decide)
  have hlen := hs.1
  have harm := hs.2.1
  constructor
  · have : (restore_pending_jobs _ 1000).1.length = 3 := hlen
    match hout : (restore_pending_jobs
        [{ baseJob with scheduled_at := 100 },
         { baseJob with job_id := "j2", scheduled_at := 950 },
         { baseJob with job_id := "j3", status := "completed" }] 1000).1 with
    | [a, b, c] =>
        rw [hout] at e0 e1 e2
        simp [List.getD] at e0 e1 e2
        rw [e0, e1, e2]
    | [] => rw [hout] at this; simp at this
    | [_] => rw [hout] at this; simp at this
    | [_, _] => rw [hout] at this; simp at this
    | _ :: _ :: _ :: _ :: _ => rw [hout] at this; simp at this
  · rw [harm]
    rfl

/-!
## C6 — cancellation touches only pending jobs
-/

/-- C6: under the unique-`job_id` index, cancelling a conversation's
follow-ups rewrites exactly the `pending` jobs of that
`(org_id, conversation_id)` pair to `cancelled` (setting `cancelled_at` and
the cancel reason), returns their number, and leaves every other document —
in particular any job already claimed into `running` — bit-for-bit unchanged;
with no matching pending job it returns 0. -/
theorem cancel_conversation_followups_spec :
    ∀ (jobs : List Job) (orgId convId reason : String) (now : Int),
      (jobs.map Job.job_id).Nodup →
      (cancel_conversation_followups jobs orgId convId reason now).2 =
        (jobs.filter fun j => j.org_id == orgId &&
          j.conversation_id == convId && j.status == "pending").length ∧
      (cancel_conversation_followups jobs orgId convId reason now).1.length =
        jobs.length ∧
      ∀ (i : Nat) (d : Job), i < jobs.length →
        (((jobs.getD i d).org_id = orgId ∧
            (jobs.getD i d).conversation_id = convId ∧
            (jobs.getD i d).status = "pending") →
          (cancel_conversation_followups jobs orgId convId reason now).1.getD
              i d =
            { jobs.getD i d with
                status := "cancelled", cancelled_at := some now,
                cancel_reason := some reason }) ∧
        (¬ ((jobs.getD i d).org_id = orgId ∧
            (jobs.getD i d).conversation_id = convId ∧
            (jobs.getD i d).status = "pending") →
          (cancel_conversation_followups jobs orgId convId reason now).1.getD
              i d = jobs.getD i d) := by
  intro jobs orgId convId reason now hnodup
  classical
  set P : Job → Bool := fun j => j.org_id == orgId &&
    j.conversation_id == convId && j.status == "pending" with hP
  have hProp : ∀ j : Job, P j = true ↔
      (j.org_id = orgId ∧ j.conversation_id = convId ∧ j.status = "pending") := by
    intro j
    simp [hP, and_assoc]
  by_cases hemp : (jobs.filter P).isEmpty = true
  · have hnil : jobs.filter P = [] := List.isEmpty_iff.mp hemp
    have hout : cancel_conversation_followups jobs orgId convId reason now =
        (jobs, 0) := by
      simp [cancel_conversation_followups, hemp, hP]
    refine ⟨by rw [hout, hnil]; rfl, by rw [hout], ?_⟩
    intro i d h
    constructor
    · intro hm
      exfalso
      have hmem : jobs.getD i d ∈ jobs.filter P :=
        List.mem_filter.mpr ⟨getD_mem_of_lt jobs i d h, (hProp _).mpr hm⟩
      rw [hnil] at hmem
      simp at hmem
    · intro _
      rw [hout]
  · have hout : cancel_conversation_followups jobs orgId convId reason now =
        (jobs.map (fun j =>
          if ((jobs.filter P).map (fun p => p.job_id)).contains j.job_id then
            { j with status := "cancelled", cancelled_at := some now,
                     cancel_reason := some reason }
          else j),
         ((jobs.filter P).map (fun p => p.job_id)).length) := by
      simp [cancel_conversation_followups, hemp, hP]
    have hinj := List.inj_on_of_nodup_map hnodup
    have hcont : ∀ j ∈ jobs,
        ((jobs.filter P).map (fun p => p.job_id)).contains j.job_id = true ↔
          P j = true := by
      intro j hj
      constructor
      · intro hc
        obtain ⟨p, hpmem, hpid⟩ := List.mem_map.mp (List.elem_iff.mp hc)
        obtain ⟨hpjobs, hpP⟩ := List.mem_filter.mp hpmem
        have : p = j := hinj hpjobs hj hpid
        rwa [this] at hpP
      · intro hPj
        exact List.elem_iff.mpr (List.mem_map.mpr
          ⟨j, List.mem_filter.mpr ⟨hj, hPj⟩, rfl⟩)
    refine ⟨by rw [hout]; simp, by rw [hout]; simp, ?_⟩
    intro i d h
    have hmem := getD_mem_of_lt jobs i d h
    have hmap := getD_map_lt (f := fun j : Job =>
      if ((jobs.filter P).map (fun p => p.job_id)).contains j.job_id then
        { j with status := "cancelled", cancelled_at := some now,
                 cancel_reason := some reason }
      else j) jobs i d d h
    constructor
    · intro hm
      rw [hout]
      simp only []
      rw [hmap]
      simp only []
      rw [if_pos ((hcont _ hmem).mpr ((hProp _).mpr hm))]
    · intro hm
      rw [hout]
      simp only []
      rw [hmap]
      simp only []
      rw [if_neg ?_]
      intro hc
      exact hm ((hProp _).mp ((hcont _ hmem).mp hc))

/-- Witness for C6: a pending job of the conversation, a running job of the
same conversation, and a pending job of another conversation; only the first
is cancelled and the count is 1.  A call against a conversation with only a
running job returns 0. -/
theorem cancel_conversation_followups_witness :
    (([baseJob, { baseJob with job_id := "j2", status := "running" },
       { baseJob with job_id := "j3", conversation_id := "conv2" }].map
        Job.job_id).Nodup ∧
      (cancel_conversation_followups
        [baseJob, { baseJob with job_id := "j2", status := "running" },
         { baseJob with job_id := "j3", conversation_id := "conv2" }]
        "org1" "conv1" "new_message_received" 2000).2 = 1 ∧
      (cancel_conversation_followups
        [baseJob, { baseJob with job_id := "j2", status := "running" },
         { baseJob with job_id := "j3", conversation_id := "conv2" }]
        "org1" "conv1" "new_message_received" 2000).1.getD 1 baseJob =
        { baseJob with job_id := "j2", status := "running" }) ∧
    (cancel_conversation_followups
      [{ baseJob with job_id := "j2", status := "running" }]
      "org1" "conv1" "reason" 2000).2 = 0 := by
  have hs := cancel_conversation_followups_spec
    [baseJob, { baseJob with job_id := "j2", status := "running" },
     { baseJob with job_id := "j3", conversation_id := "conv2" }]
    "org1" "conv1" "new_message_received" 2000 (by decide)
  have hs2 := cancel_conversation_followups_spec
    [{ baseJob with job_id := "j2", status := "running" }]
    "org1" "conv1" "reason" 2000 (by decide)
  refine ⟨⟨by decide, ?_, ?_⟩, ?_⟩
  · rw [hs.1]; rfl
  · exact (hs.2.2 1 baseJob (by decide)).2 (by decide)
  · rw [hs2.1]; rfl

/-!
## C2 — publish-time validation
-/

theorem findFlow_updateFirstFlow (flows : List FlowDoc) (orgId flowId : String)
    (u : FlowDoc → FlowDoc)
    (hu : ∀ f, (u f).flow_id = f.flow_id ∧ (u f).org_id = f.org_id) :
    findFlow (updateFirstFlow flows orgId flowId u) orgId flowId =
      (findFlow flows orgId flowId).map u := by
  induction flows with
  | nil => rfl
  | cons f rest ih =>
      by_cases hf : (f.flow_id == flowId && f.org_id == orgId) = true
      · simp only [updateFirstFlow, findFlow, if_pos hf, List.find?]
        have : ((u f).flow_id == flowId && (u f).org_id == orgId) = true := by
          rw [(hu f).1, (hu f).2]; exact hf
        rw [this]
        simp only [findFlow, List.find?] at *
        rw [hf]
        rfl
      · simp only [updateFirstFlow, findFlow, if_neg hf, List.find?]
        rw [Bool.not_eq_true] at hf
        rw [hf]
        simpa [findFlow] using ih

/-- C2 counterexample: a flow with no nodes, a dangling connection and an
empty trigger list — invalid on every count of the claim — is nonetheless
published successfully: the publish call returns ok and rewrites the stored
status to `published`. -/
theorem publish_flow_counterexample :
    claimPublishValidity flowBad.flow_data = false ∧
    publish_automation_flow [flowBad] [] "org1" "f1" 0 (fun _ => "jid") =
      Except.ok ([{ flowBad with status := "published",
                                 published_at := some 0,
                                 updated_at := 0 }], []) :=
  ⟨rfl, rfl⟩

/-- C2 amended: publishing succeeds iff the flow exists — the graph-validity
conditions (connection endpoints and trigger start nodes referencing existing
nodes, non-empty triggers) are not checked at publish time, and on success
the stored status becomes `published` whatever the graph looks like.  The
referential checks live only in `validate_flow_structure`, applied at
create/update time when `flow_data` is supplied, and even that validator
accepts an empty trigger list. -/
theorem publish_flow_amended :
    ∀ (flows : List FlowDoc) (jobs : List Job) (orgId flowId : String)
      (now : Int) (genId : Nat → String),
      ((publish_automation_flow flows jobs orgId flowId now genId).isOk = true ↔
        (findFlow flows orgId flowId).isSome = true) ∧
      (∀ f, findFlow flows orgId flowId = some f →
        ∃ fl js,
          publish_automation_flow flows jobs orgId flowId now genId =
            Except.ok (fl, js) ∧
          findFlow fl orgId flowId =
            some { f with status := "published", published_at := some now,
                          updated_at := now }) ∧
      validate_flow_structure { nodes := [], connections := [], triggers := [] }
        = (true, none) := by
  intro flows jobs orgId flowId now genId
  refine ⟨?_, ?_, rfl⟩
  · cases hfind : findFlow flows orgId flowId with
    | none => simp [publish_automation_flow, hfind, Except.isOk, Except.toBool]
    | some f => simp [publish_automation_flow, hfind, Except.isOk, Except.toBool]
  · intro f hfind
    refine ⟨updateFirstFlow flows orgId flowId
      (fun g => { g with status := "published", published_at := some now,
                         updated_at := now }),
      publish_automation_flow.scheduleLoop orgId flowId now genId f.flow_data
        jobs 0 f.flow_data.triggers, ?_, ?_⟩
    · simp [publish_automation_flow, hfind]
    · rw [findFlow_updateFirstFlow flows orgId flowId
        (fun g => { g with status := "published", published_at := some now,
                           updated_at := now })
        (fun g => ⟨rfl, rfl⟩), hfind]
      rfl

/-- Witness for the amended C2 statement: the invalid fixture flow exists, so
publish succeeds and its status becomes `published`. -/
theorem publish_flow_amended_witness :
    (publish_automation_flow [flowBad] [] "org1" "f1" 0
      (fun _ => "jid")).isOk = true ∧
    (∃ fl js,
      publish_automation_flow [flowBad] [] "org1" "f1" 0 (fun _ => "jid") =
        Except.ok (fl, js) ∧
      findFlow fl "org1" "f1" =
        some { flowBad with status := "published", published_at := some 0,
                            updated_at := 0 }) :=
  ⟨((publish_flow_amended [flowBad] [] "org1" "f1" 0 (fun _ => "jid")).1).mpr
      rfl,
   (publish_flow_amended [flowBad] [] "org1" "f1" 0 (fun _ => "jid")).2.1
      flowBad rfl⟩

/-!
## C7 — template resolution
-/

theorem takeWhile_append_rbrace (l : List Char)
    (h : ∀ c ∈ l, notRBrace c = true) :
    (l ++ ['}', '}']).takeWhile notRBrace = l ∧
    (l ++ ['}', '}']).dropWhile notRBrace = ['}', '}'] := by
  induction l with
  | nil => constructor <;> rfl
  | cons c cs ih =>
      have hc := h c (List.mem_cons_self c cs)
      obtain ⟨ih1, ih2⟩ := ih fun x hx => h x (List.mem_cons_of_mem _ hx)
      constructor
      · simp [List.takeWhile_cons, hc, ih1]
      · simp [List.dropWhile_cons, hc, ih2]

theorem substCharsF_nil (resolve : String → Option String) (m : Nat) :
    substCharsF resolve m [] = [] := by
  cases m <;> rfl

theorem substChars_placeholder (resolve : String → Option String)
    (name : String) (hne : name.data ≠ [])
    (hnb : ∀ c ∈ name.data, notRBrace c = true) :
    substChars resolve ('{' :: '{' :: (name.data ++ ['}', '}'])) =
      (match resolve name with
        | some s => s.data
        | none => '{' :: '{' :: name.data ++ ['}', '}']) := by
  obtain ⟨l⟩ := name
  obtain ⟨htw, hdw⟩ := takeWhile_append_rbrace l hnb
  have hie : l.isEmpty = false := by
    cases l with
    | nil => exact absurd rfl hne
    | cons a t => rfl
  show substCharsF resolve ('{' :: '{' :: (l ++ ['}', '}'])).length
      ('{' :: '{' :: (l ++ ['}', '}'])) = _
  have hlen : ('{' :: '{' :: (l ++ ['}', '}'])).length = (l.length + 3) + 1 := by
    simp [List.length_append]
  rw [hlen]
  simp only [substCharsF, htw, hie, Bool.false_eq_true, if_false]
  split
  · rename_i after heq
    rw [hdw] at heq
    cases heq
    cases hres : resolve (String.mk l) with
    | some s => simp [substCharsF_nil, hres]
    | none => simp [substCharsF_nil, hres]
  · rename_i hmiss
    rw [hdw] at hmiss
    exact absurd rfl (hmiss [])

theorem walkParts_vnone (ps : List String) :
    walkParts Value.vnone ps = none := by
  cases ps <;> rfl

theorem walkParts_eq_walkGV (ps : List String) (v : Value) :
    walkParts v ps =
      (match get_variable.walkGV v ps with
        | Value.vnone => none
        | w => some w.pyStr) := by
  induction ps generalizing v with
  | nil => cases v <;> rfl
  | cons p rest ih =>
      cases v with
      | vdict fields =>
          simp only [walkParts, get_variable.walkGV]
          cases hf : dictGet fields p with
          | none =>
              have hd : dictGetD fields p Value.vnone = Value.vnone := by
                simp [dictGetD, hf]
              rw [hd, walkParts_vnone]
          | some w =>
              have hd : dictGetD fields p Value.vnone = w := by
                simp [dictGetD, hf]
              rw [hd]
              exact ih w
      | vnone => rfl
      | vstr s => rfl
      | vint n => rfl
      | vbool b => rfl
      | vlist items => rfl

theorem resolveVarRaw_eq_ctxResolve (vars : List (String × Value))
    (raw : String) : resolveVarRaw vars raw = ctxResolve vars raw :=
  walkParts_eq_walkGV (pySplitDot (pyStrip raw)) (Value.vdict vars)

/-- C7: template resolution.  (a) A lone placeholder around any non-empty
`\x7d`-free capture resolves through the nested mappings: when the dotted
walk produces a value the result is that value's string form, and when any
segment is missing, an intermediate is not a mapping, or the walk lands on
`None`, the placeholder text is returned verbatim — in particular never the
empty string, and no input raises.  (b) The concrete contract:
`\x7b\x7ba.b\x7d\x7d` against `a ↦ (b ↦ "x")` gives `"x"`; against `a ↦ ()`
or `a ↦ 5` it returns the literal placeholder.  (c) The context method
`FlowExecutionContext.replace_variables` agrees with the module-level
`replace_variables` on every string. -/
theorem replace_variables_spec :
    (∀ (vars : List (String × Value)) (name : String),
      name.data ≠ [] → (∀ c ∈ name.data, notRBrace c = true) →
      replace_variables ("\x7b\x7b" ++ name ++ "\x7d\x7d") vars =
        (match resolveVarRaw vars name with
          | some s => s
          | none => "\x7b\x7b" ++ name ++ "\x7d\x7d")) ∧
    (∀ (vars : List (String × Value)) (name : String),
      name.data ≠ [] → (∀ c ∈ name.data, notRBrace c = true) →
      resolveVarRaw vars name = none →
      replace_variables ("\x7b\x7b" ++ name ++ "\x7d\x7d") vars =
          "\x7b\x7b" ++ name ++ "\x7d\x7d" ∧
        ("\x7b\x7b" ++ name ++ "\x7d\x7d" : String) ≠ "") ∧
    (replace_variables "\x7b\x7ba.b\x7d\x7d"
        [("a", Value.vdict [("b", Value.vstr "x")])] = "x" ∧
      replace_variables "\x7b\x7ba.b\x7d\x7d" [("a", Value.vdict [])] =
        "\x7b\x7ba.b\x7d\x7d" ∧
      replace_variables "\x7b\x7ba.b\x7d\x7d" [("a", Value.vint 5)] =
        "\x7b\x7ba.b\x7d\x7d") ∧
    (∀ (vars : List (String × Value)) (text : String),
      ctx_replace_variables vars text = replace_variables text vars) := by
  have hmain : ∀ (vars : List (String × Value)) (name : String),
      name.data ≠ [] → (∀ c ∈ name.data, notRBrace c = true) →
      replace_variables ("\x7b\x7b" ++ name ++ "\x7d\x7d") vars =
        (match resolveVarRaw vars name with
          | some s => s
          | none => "\x7b\x7b" ++ name ++ "\x7d\x7d") := by
    intro vars name hne hnb
    obtain ⟨l⟩ := name
    have hdata : ("\x7b\x7b" ++ String.mk l ++ "\x7d\x7d").data =
        '{' :: '{' :: (l ++ ['}', '}']) := rfl
    show String.mk (substChars (resolveVarRaw vars)
        ("\x7b\x7b" ++ String.mk l ++ "\x7d\x7d").data) = _
    rw [hdata, substChars_placeholder (resolveVarRaw vars) (String.mk l) hne
      hnb]
    cases hres : resolveVarRaw vars (String.mk l) with
    | some s => rfl
    | none => rfl
  refine ⟨hmain, ?_, ⟨rfl, rfl, rfl⟩, ?_⟩
  · intro vars name hne hnb hres
    refine ⟨?_, ?_⟩
    · rw [hmain vars name hne hnb, hres]
    · obtain ⟨l⟩ := name
      intro hcontra
      have : ('{' :: '{' :: (l ++ ['}', '}']) : List Char) = [] :=
        congrArg String.data hcontra
      simp at this
  · intro vars text
    have : resolveVarRaw vars = ctxResolve vars :=
      funext fun raw => resolveVarRaw_eq_ctxResolve vars raw
    show String.mk (substChars (ctxResolve vars) text.data) =
      String.mk (substChars (resolveVarRaw vars) text.data)
    rw [this]

/-- Witness for C7 at the concrete capture `a.b`. -/
theorem replace_variables_spec_witness :
    replace_variables "\x7b\x7ba.b\x7d\x7d"
        [("a", Value.vdict [("b", Value.vstr "x")])] =
      (match resolveVarRaw [("a", Value.vdict [("b", Value.vstr "x")])] "a.b"
          with
        | some s => s
        | none => "\x7b\x7ba.b\x7d\x7d") ∧
    (replace_variables "\x7b\x7ba.b\x7d\x7d" [("a", Value.vdict [])] =
        "\x7b\x7ba.b\x7d\x7d" ∧
      ("\x7b\x7ba.b\x7d\x7d" : String) ≠ "") :=
  ⟨replace_variables_spec.1 [("a", Value.vdict [("b", Value.vstr "x")])] "a.b"
      (by decide) (by decide),
   replace_variables_spec.2.1 [("a", Value.vdict [])] "a.b" (by decide)
      (by decide) rfl⟩

/-!
## C8 — conditional routing
-/

/-- C8 counterexample: with connections whose handles are `"TRUE"` and `""`,
the claim's reading (handle contains the substring `"true"`) matches nothing
and so follows all outgoing connections, but the code lowercases the handle
first and follows only the `"TRUE"` edge. -/
theorem conditional_routing_counterexample :
    claimConditionalNextNodes "n" connsUpper true = ["t1", "t2"] ∧
    get_conditional_next_nodes "n" connsUpper true = ["t1"] ∧
    get_conditional_next_nodes "n" connsUpper true ≠
      claimConditionalNextNodes "n" connsUpper true :=
  ⟨rfl, rfl, by decide⟩

/-- C8 amended: after evaluating a condition node the executor recurses
exactly into the targets of the node's outgoing connections whose
source-handle contains the substring `"true"`/`"false"` case-insensitively
(the handle is lowercased before the containment test); when no outgoing
handle contains the matching substring, all outgoing connections are
followed. -/
theorem conditional_routing_amended :
    (∀ (nodeId : String) (conns : List Conn) (r : Bool) (t : String),
      t ∈ get_conditional_next_nodes nodeId conns r ↔
        ((∃ c ∈ conns, c.source = nodeId ∧
            pyIn (if r then "true" else "false") (pyLower c.sourceHandle)
              = true ∧ c.target = t) ∨
         ((∀ c ∈ conns, c.source = nodeId →
            pyIn (if r then "true" else "false") (pyLower c.sourceHandle)
              = false) ∧
          ∃ c ∈ conns, c.source = nodeId ∧ c.target = t))) ∧
    (∀ (env : Env) (nodes : List (String × Node)) (conns : List Conn)
        (fuel : Nat) (ctx ctx2 ctx3 : Ctx) (nodeId : String) (node : Node)
        (r : Bool),
      nodeGet nodes nodeId = some node → node.type = "condition" →
      execute_condition_node env
          (ctx.log nodeId node.type "node_start"
            ("Executing node: " ++ node.type) true) nodeId node.config =
        (ctx2, none, r) →
      execute_node_list env nodes conns fuel ctx2
          (get_conditional_next_nodes nodeId conns r) = (ctx3, none) →
      execute_node env nodes conns (fuel + 1) ctx nodeId = (ctx3, none)) := by
  constructor
  · intro nodeId conns r t
    simp only [get_conditional_next_nodes]
    by_cases hm : ((conns.filter fun c =>
        c.source == nodeId && pyIn (if r then "true" else "false")
          (pyLower c.sourceHandle)).map fun c => c.target) = []
    · rw [hm]
      simp only [List.isEmpty_nil, if_true]
      have hnone : ∀ c ∈ conns, c.source = nodeId →
          pyIn (if r then "true" else "false") (pyLower c.sourceHandle)
            = false := by
        intro c hc hsrc
        by_contra hx
        have hx' : pyIn (if r then "true" else "false")
            (pyLower c.sourceHandle) = true := by
          cases hpy : pyIn (if r then "true" else "false")
              (pyLower c.sourceHandle) with
          | true => rfl
          | false => exact absurd hpy hx
        have : c.target ∈ (conns.filter fun c =>
            c.source == nodeId && pyIn (if r then "true" else "false")
              (pyLower c.sourceHandle)).map fun c => c.target :=
          List.mem_map.mpr ⟨c, List.mem_filter.mpr ⟨hc, by simp [hsrc, hx']⟩,
            rfl⟩
        rw [hm] at this
        simp at this
      constructor
      · intro ht
        refine Or.inr ⟨hnone, ?_⟩
        simp only [get_next_nodes] at ht
        obtain ⟨c, hc, htgt⟩ := List.mem_map.mp ht
        obtain ⟨hcm, hsrc⟩ := List.mem_filter.mp hc
        exact ⟨c, hcm, by simpa using hsrc, htgt⟩
      · rintro (⟨c, hc, hsrc, hpy, htgt⟩ | ⟨_, c, hc, hsrc, htgt⟩)
        · exact absurd hpy (by simp [hnone c hc hsrc])
        · exact List.mem_map.mpr ⟨c, List.mem_filter.mpr ⟨hc, by simp [hsrc]⟩,
            htgt⟩
    · have hne : (((conns.filter fun c =>
          c.source == nodeId && pyIn (if r then "true" else "false")
            (pyLower c.sourceHandle)).map fun c => c.target)).isEmpty
          = false := by
        cases hval : ((conns.filter fun c =>
            c.source == nodeId && pyIn (if r then "true" else "false")
              (pyLower c.sourceHandle)).map fun c => c.target) with
        | nil => exact absurd hval hm
        | cons a l => rfl
      rw [hne]
      simp only [Bool.false_eq_true, if_false]
      constructor
      · intro ht
        obtain ⟨c, hc, htgt⟩ := List.mem_map.mp ht
        obtain ⟨hcm, hcond⟩ := List.mem_filter.mp hc
        rcases Bool.and_eq_true _ _ |>.mp hcond with ⟨hsrc, hpy⟩
        exact Or.inl ⟨c, hcm, by simpa using hsrc, hpy, htgt⟩
      · rintro (⟨c, hc, hsrc, hpy, htgt⟩ | ⟨hall, c, hc, hsrc, htgt⟩)
        · exact List.mem_map.mpr ⟨c, List.mem_filter.mpr
            ⟨hc, by simp [hsrc, hpy]⟩, htgt⟩
        · exfalso
          apply hm
          rw [List.map_eq_nil, List.filter_eq_nil]
          intro x hx
          simp only [Bool.and_eq_true, not_and]
          intro hxsrc
          have := hall x hx (by simpa using hxsrc)
          simp [this]
  · intro env nodes conns fuel ctx ctx2 ctx3 nodeId node r hget htype hcond
      hlist
    rw [execute_node, hget]
    simp only []
    rw [htype] at hcond ⊢
    have htrig : isTriggerNodeType "condition" = false := rfl
    rw [htrig]
    simp only [Bool.false_eq_true, if_false, beq_self_eq_true, if_true]
    rw [hcond]
    simp only []
    have hfold : List.foldl
        (fun acc n =>
          match acc with
          | (c, some e) => (c, some e)
          | (c, none) => execute_node env nodes conns fuel c n)
        (ctx2, none) (get_conditional_next_nodes nodeId conns r) =
        (ctx3, none) := hlist
    rw [hfold]

/-- Witness for the amended C8 statement: the `platform equals whatsapp`
condition evaluates to true over WhatsApp trigger data, and the executor
recurses exactly into the target behind the `true_out` handle. -/
theorem conditional_routing_amended_witness :
    get_conditional_next_nodes "c1" connsC8 true = ["x"] ∧
    execute_node envW nodesC8 connsC8 2 ctxNoConv "c1" =
      ((execute_node_list envW nodesC8 connsC8 1
          (execute_condition_node envW
            (ctxNoConv.log "c1" "condition" "node_start"
              ("Executing node: " ++ "condition") true) "c1"
            nodeC8.config).1
          (get_conditional_next_nodes "c1" connsC8 true)).1, none) :=
  ⟨rfl,
   conditional_routing_amended.2 envW nodesC8 connsC8 1 ctxNoConv _ _ "c1"
     nodeC8 true rfl rfl rfl rfl⟩

/-!
## C9 — per-node action failures do not abort the flow
-/

theorem execute_action_node_no_raise (env : Env) (ctx : Ctx)
    (nodeId nodeType : String) (cfg : List (String × Value)) :
    (execute_action_node env ctx nodeId nodeType cfg).2 = none := by
  simp only [execute_action_node]
  split
  · rfl
  · rename_i hnone
    exact hnone

/-- C9: a per-node action failure is contained.  (1) `execute_action_node`
never propagates an exception, whatever the handlers and the outside world
do.  (2) A WhatsApp message node whose trigger data lacks `conversation_id`
records a `success=False` log entry, performs no external effect, and returns
normally.  (3) A send call that raises is caught inside the handler: a
`success=False` entry is recorded and no exception escapes.  (4) For any
action node the executor proceeds into the node's outgoing connections
afterwards, whatever the action's outcome was. -/
theorem action_failure_containment :
    (∀ (env : Env) (ctx : Ctx) (nodeId nodeType : String)
        (cfg : List (String × Value)),
      (execute_action_node env ctx nodeId nodeType cfg).2 = none) ∧
    (∀ (env : Env) (ctx : Ctx) (nodeId : String) (cfg : List (String × Value)),
      dictGetD ctx.trigger_data "platform" Value.vnone =
        Value.vstr "whatsapp" →
      (dictGetD ctx.trigger_data "conversation_id" Value.vnone).truthy =
        false →
      dictGet cfg "content" = none →
      execute_message_node env ctx nodeId cfg =
        ((ctx.log nodeId "message" "executing" "Sending message: ..." true).log
          nodeId "message" "error" "Missing conversation_id or whatsapp_id"
          false, none) ∧
      (execute_message_node env ctx nodeId cfg).1.effects = ctx.effects) ∧
    (∀ (env : Env) (ctx : Ctx) (nodeId : String) (cfg : List (String × Value))
        (e : String),
      dictGetD ctx.trigger_data "platform" Value.vnone =
        Value.vstr "whatsapp" →
      (dictGetD ctx.trigger_data "conversation_id" Value.vnone).truthy =
        true →
      (dictGetD ctx.trigger_data "platform_id" Value.vnone).truthy = true →
      dictGet cfg "content" = none →
      env.sendWA (dictGetD ctx.trigger_data "conversation_id" Value.vnone) ""
          (dictGetD ctx.trigger_data "platform_id" Value.vnone) =
        Except.error e →
      execute_message_node env ctx nodeId cfg =
        ((ctx.log nodeId "message" "executing" "Sending message: ..." true).log
          nodeId "message" "error" ("Error sending message: " ++ e) false,
         none)) ∧
    (∀ (env : Env) (nodes : List (String × Node)) (conns : List Conn)
        (fuel : Nat) (ctx ctx3 : Ctx) (nodeId : String) (node : Node),
      nodeGet nodes nodeId = some node →
      isTriggerNodeType node.type = false →
      (node.type == "condition") = false →
      (node.type == "randomizer") = false →
      execute_node_list env nodes conns fuel
          (execute_action_node env
            (ctx.log nodeId node.type "node_start"
              ("Executing node: " ++ node.type) true) nodeId node.type
            node.config).1 (get_next_nodes nodeId conns) = (ctx3, none) →
      execute_node env nodes conns (fuel + 1) ctx nodeId = (ctx3, none)) := by
  refine ⟨execute_action_node_no_raise, ?_, ?_, ?_⟩
  · intro env ctx nodeId cfg hplat hconv hcont
    have htext : replaceVariablesVal
        (dictGetD ([] : List (String × Value)) "text" (Value.vstr ""))
        ctx.vars = "" := rfl
    have heq : execute_message_node env ctx nodeId cfg =
        ((ctx.log nodeId "message" "executing" "Sending message: ..."
            true).log nodeId "message" "error"
          "Missing conversation_id or whatsapp_id" false, none) := by
      simp only [execute_message_node, hcont]
      rw [hplat, htext]
      simp +decide [valueEqStr, hconv]
      rfl
    exact ⟨heq, by rw [heq]; rfl⟩
  · intro env ctx nodeId cfg e hplat hconv hpid hcont hsend
    have htext : replaceVariablesVal
        (dictGetD ([] : List (String × Value)) "text" (Value.vstr ""))
        ctx.vars = "" := rfl
    simp only [execute_message_node, hcont]
    rw [hplat, htext]
    simp +decide [valueEqStr, hconv, hpid, hsend]
    rfl
  · intro env nodes conns fuel ctx ctx3 nodeId node hget htrig hcond hrand
      hlist
    rw [execute_node, hget]
    simp only []
    rw [htrig, hcond, hrand]
    simp only [Bool.false_eq_true, if_false]
    rcases hact : execute_action_node env
        (ctx.log nodeId node.type "node_start"
          ("Executing node: " ++ node.type) true) nodeId node.type
        node.config with ⟨c2, oe⟩
    have hoe : oe = none := by
      have h := execute_action_node_no_raise env
        (ctx.log nodeId node.type "node_start"
          ("Executing node: " ++ node.type) true) nodeId node.type node.config
      rw [hact] at h
      exact h
    subst hoe
    rw [hact] at hlist
    simp only []
    have hfold : List.foldl
        (fun acc n =>
          match acc with
          | (c, some e) => (c, some e)
          | (c, none) => execute_node env nodes conns fuel c n)
        (c2, none) (get_next_nodes nodeId conns) = (ctx3, none) := hlist
    rw [hfold]

/-- Witness for C9: a WhatsApp message node without `conversation_id` fails
softly and its downstream node is still executed. -/
theorem action_failure_containment_witness :
    (execute_action_node envW ctxNoConv "a1" "message" []).2 = none ∧
    execute_message_node envW ctxNoConv "a1" [] =
      ((ctxNoConv.log "a1" "message" "executing" "Sending message: ..."
          true).log "a1" "message" "error"
        "Missing conversation_id or whatsapp_id" false, none) ∧
    execute_message_node envW ctxConv "a1" [] =
      ((ctxConv.log "a1" "message" "executing" "Sending message: ..."
          true).log "a1" "message" "error"
        ("Error sending message: " ++ "network down") false, none) ∧
    execute_node envW nodesMsg connsMsg 2 ctxNoConv "a1" =
      ((execute_node_list envW nodesMsg connsMsg 1
          (execute_action_node envW
            (ctxNoConv.log "a1" "message" "node_start"
              ("Executing node: " ++ "message") true) "a1" "message"
            (Node.mk "message" []).config).1
          (get_next_nodes "a1" connsMsg)).1, none) :=
  ⟨action_failure_containment.1 envW ctxNoConv "a1" "message" [],
   (action_failure_containment.2.1 envW ctxNoConv "a1" [] rfl rfl rfl).1,
   action_failure_containment.2.2.1 envW ctxConv "a1" [] "network down" rfl
     rfl rfl rfl rfl,
   action_failure_containment.2.2.2 envW nodesMsg connsMsg 1 ctxNoConv _ "a1"
     (Node.mk "message" []) rfl rfl rfl rfl rfl⟩

/-!
## C10 — exactly one execution record per call
-/

/-- C10: every call of `execute_automation_flow` — flow missing, flow not
published, no matching trigger, a raising node walk, or a clean run — appends
exactly one record to the executions collection; at insertion time the
record's status is `"success"` or `"failed"` (never `"running"`) and
`completed_at` is set; and the flow store is bumped through
`increment_execution_count` exactly when that status is `"success"`. -/
theorem execution_record_invariant :
    ∀ (env : Env) (fuel : Nat) (flows : List FlowDoc) (execs : List ExecDoc)
      (orgId flowId triggerType : String) (tdata : List (String × Value))
      (execId : String),
      (execute_automation_flow env fuel flows execs orgId flowId triggerType
          tdata execId).2.1 =
        execs ++ [(execute_automation_flow env fuel flows execs orgId flowId
          triggerType tdata execId).2.2] ∧
      ((execute_automation_flow env fuel flows execs orgId flowId triggerType
          tdata execId).2.2.status = "success" ∨
       (execute_automation_flow env fuel flows execs orgId flowId triggerType
          tdata execId).2.2.status = "failed") ∧
      (execute_automation_flow env fuel flows execs orgId flowId triggerType
          tdata execId).2.2.completed_at.isSome = true ∧
      (execute_automation_flow env fuel flows execs orgId flowId triggerType
          tdata execId).1 =
        (if (execute_automation_flow env fuel flows execs orgId flowId
            triggerType tdata execId).2.2.status = "success" then
          increment_execution_count flows orgId flowId env.now
        else flows) := by
  intro env fuel flows execs orgId flowId triggerType tdata execId
  cases hfind : findFlow flows orgId flowId with
  | none =>
      simp [execute_automation_flow, hfind, Ctx.mark_failed, Ctx.log,
        Ctx.to_dict, mkContext]
  | some flow =>
      by_cases hpub : (flow.status == "published") = true
      · cases hstart : findStartNode flow.flow_data.triggers
            (eventToTriggerType triggerType) with
        | none =>
            simp [execute_automation_flow, hfind, hpub, hstart,
              Ctx.mark_failed, Ctx.log, Ctx.to_dict, mkContext]
        | some startId =>
            rcases hrun : execute_node env flow.flow_data.nodes
                flow.flow_data.connections fuel
                ((mkContext env.now orgId flowId triggerType tdata
                  execId).log "system" "system" "execution_start"
                  ("Starting execution of flow: " ++ flow.name) true)
                startId with ⟨c, oe⟩
            cases oe with
            | none =>
                simp only [execute_automation_flow, hfind, hpub, hstart]
                rw [hrun]
                simp [Ctx.mark_success, Ctx.log, Ctx.to_dict]
            | some e =>
                simp only [execute_automation_flow, hfind, hpub, hstart]
                rw [hrun]
                simp [Ctx.mark_failed, Ctx.log, Ctx.to_dict]
      · simp [execute_automation_flow, hfind, hpub, Ctx.mark_failed, Ctx.log,
          Ctx.to_dict, mkContext]

end Automation
